import Mathlib

set_option maxHeartbeats 1000000
set_option maxRecDepth 10000

/- Verification of the Minecraft-schematic to LDraw converter
   (minecraft_to_lego_converter.py).  The Python source is shallowly embedded:
   each Python function becomes a Lean definition of the same name (snake_case
   becomes camelCase); the module-level lookup tables become list literals,
   transcribed verbatim from the source (Python dict literals with duplicated
   keys keep every entry here; all duplicated keys in the source carry equal
   values, so first-match lookup agrees with Python's last-wins semantics). -/

/-- A voxel position `(y, z, x)`; all scans are layer-major: Y outer, then Z, then X. -/
abbrev Pos := Nat × Nat × Nat

/- Python string primitives, implemented over `List Char` with structural
   recursion (the corresponding library functions use well-founded recursion,
   which the kernel cannot evaluate, and every theorem below is checked by
   evaluation). -/

/-- Characterwise prefix test over character lists. -/
def listPrefixOf : List Char → List Char → Bool
  | [], _ => true
  | _ :: _, [] => false
  | a :: pat, b :: s => a == b && listPrefixOf pat s

/-- Python `s.replace(pat, rep)` over character lists: left-to-right,
non-overlapping (only used with nonempty patterns); the input length serves
as structural fuel. -/
def replaceFuel (pat rep : List Char) : Nat → List Char → List Char
  | _, [] => []
  | 0, s => s
  | fuel + 1, c :: rest =>
    if listPrefixOf pat (c :: rest) then
      match pat with
      | [] => c :: rest
      | _ :: patTail => rep ++ replaceFuel pat rep fuel (rest.drop patTail.length)
    else c :: replaceFuel pat rep fuel rest

/-- Python `s.replace(pat, rep)`. -/
def pyReplace (s pat rep : String) : String :=
  ⟨replaceFuel pat.data rep.data s.data.length s.data⟩

/-- Python `s.split(sep)` over character lists (nonempty separator), with
structural fuel; `acc` holds the current piece reversed. -/
def splitFuel (sep : List Char) : Nat → List Char → List Char → List (List Char)
  | _, acc, [] => [acc.reverse]
  | 0, acc, s => [acc.reverse ++ s]
  | fuel + 1, acc, c :: rest =>
    if listPrefixOf sep (c :: rest) && !sep.isEmpty then
      acc.reverse :: splitFuel sep fuel [] (rest.drop (sep.length - 1))
    else splitFuel sep fuel (c :: acc) rest

/-- Python `s.split(sep)` for a nonempty separator. -/
def pySplit (s sep : String) : List String :=
  (splitFuel sep.data s.data.length [] s.data).map (fun l => ⟨l⟩)

/-- Python `s.rstrip(c)`. -/
def pyRStrip (s : String) (c : Char) : String :=
  ⟨(s.data.reverse.dropWhile (fun d => d == c)).reverse⟩

/-- Python `sep.join(parts)`. -/
def pyJoin (sep : String) : List String → String
  | [] => ""
  | [x] => x
  | x :: xs => x ++ sep ++ pyJoin sep (xs)

/-- Parse a decimal natural number (every character must be a digit). -/
def parseNatL (l : List Char) : Option Nat :=
  if !l.isEmpty && l.all (fun c => c.isDigit) then
    some (l.foldl (fun acc c => acc * 10 + (c.toNat - 48)) 0)
  else none

/-- Python `float(tok)` as used on rotation-matrix tokens (always integer
literals, possibly negative). -/
def parseIntTok (s : String) : Int :=
  match s.data with
  | '-' :: rest => -(((parseNatL rest).getD 0 : Nat) : Int)
  | l => (((parseNatL l).getD 0 : Nat) : Int)

/-- Python `str.lower()` for ASCII strings. -/
def pyLower (s : String) : String :=
  ⟨s.data.map (fun c => if 'A' ≤ c && c ≤ 'Z' then Char.ofNat (c.toNat + 32) else c)⟩

/-- Python `sub in s` substring test for a nonempty needle `sub`:
`s` splits at `sub` into more than one piece exactly when `sub` occurs in `s`. -/
def strContains (s sub : String) : Bool := (pySplit s sub).length > 1

/-- The name-normalisation idiom repeated in `_block_name_to_id`, `_is_skip_block`
and `_get_color_from_block_name`: `name.replace("minecraft:", "")` followed by
`name.split("[")[0]`. -/
def stripBlockName (s : String) : String :=
  (pySplit (pyReplace s "minecraft:" "") "[").getD 0 ""

/-- Python `dict.get(k, default)` over an association list. -/
def dictGet [BEq β] (l : List (β × γ)) (k : β) (dflt : γ) : γ :=
  match l.find? (fun kv => kv.1 == k) with
  | some kv => kv.2
  | none => dflt

/-- Python `k in dict` / `dict[k]` over an association list. -/
def dictGet? [BEq β] (l : List (β × γ)) (k : β) : Option γ :=
  (l.find? (fun kv => kv.1 == k)).map (fun kv => kv.2)

/-- `self.default_brick`: the 1x1 brick used for every unmerged block. -/
def defaultBrick : String := "3005"

/-- `self.special_parts`: part ids for slabs/carpets and stairs. -/
def specialPartSlab : String := "3024"

/-- `self.special_parts["stair"]`. -/
def specialPartStair : String := "54200"

/-- `self.rotations` with the `rotations.get(facing, rotations["north"])` lookup
used by `_get_special_part_info`: the four cardinal facings map to fixed
3x3 matrices rendered as 9 whitespace-separated values. -/
def rotationFor (facing : String) : String :=
  if facing = "north" then "1 0 0 0 1 0 0 0 1"
  else if facing = "east" then "0 0 -1 0 1 0 1 0 0"
  else if facing = "south" then "-1 0 0 0 1 0 0 0 -1"
  else if facing = "west" then "0 0 1 0 1 0 -1 0 0"
  else "1 0 0 0 1 0 0 0 1"

/-- The `for i in range(3, 9): vals[i] = -vals[i]` loop of `_flip_rotation_y`. -/
def negIndices : Nat → List Int → List Int
  | _, [] => []
  | i, v :: rest => (if 3 ≤ i ∧ i < 9 then -v else v) :: negIndices (i + 1) rest

/-- `_flip_rotation_y`: parse the nine values, negate indices 3..8 (the Y and Z
rows), re-render.  Every stored value is an integer, so Python's
`str(int(v))` rendering branch always applies. -/
def flipRotationY (rotationStr : String) : String :=
  let vals := (pySplit rotationStr " ").map parseIntTok
  let flipped := negIndices 0 vals
  pyJoin " " (flipped.map (fun v => toString v))

/-- `_parse_block_state`: strip the namespace, then split the base name from the
bracketed `key=value` properties (Python `prop.split("=", 1)`). -/
def parseBlockState (blockName : String) : String × List (String × String) :=
  let name := pyReplace blockName "minecraft:" ""
  if strContains name "[" then
    let baseName := (pySplit name "[").getD 0 ""
    let propsStr := pyRStrip ((pySplit name "[").getD 1 "") ']'
    let props := (pySplit propsStr ",").filterMap (fun prop =>
      match pySplit prop "=" with
      | k :: v :: rest => some (k, pyJoin "=" (v :: rest))
      | _ => none)
    (baseName, props)
  else (name, [])

/-- Python dict lookup `props.get(key, dflt)` for the property dict built by
successive assignment: the last binding for a key wins. -/
def propsGet (props : List (String × String)) (key dflt : String) : String :=
  match props.reverse.find? (fun kv => kv.1 == key) with
  | some kv => kv.2
  | none => dflt

/-- The result dict of `_get_special_part_info` (keys that are absent for a
given shape default to `""`). -/
structure SpecialInfo where
  part : String
  rotation : String
  yOffset : Int
  stype : String
  facing : String := ""
  half : String := ""
  slabType : String := ""
deriving DecidableEq

/-- `_get_special_part_info` (debug counters and printing omitted): the stair
check runs first, then slabs (`type=double` reclassifies as a full block,
returning `none`), then carpet. -/
def getSpecialPartInfo (blockName : String) : Option SpecialInfo :=
  let bp := parseBlockState blockName
  let baseName := bp.1
  let props := bp.2
  if strContains baseName "stairs" || strContains baseName "stair" then
    let facing := propsGet props "facing" "north"
    let half := propsGet props "half" "bottom"
    let rotation0 := rotationFor facing
    let rotation := if half = "top" then flipRotationY rotation0 else rotation0
    let yOffset : Int := if half = "top" then 24 else 0
    some { part := specialPartStair, rotation := rotation, yOffset := yOffset,
           stype := "stair", facing := facing, half := half }
  else if strContains baseName "slab" then
    let slabType := propsGet props "type" "bottom"
    if slabType = "double" then none
    else
      let yOffset : Int := if slabType = "top" then 0 else 16
      some { part := specialPartSlab, rotation := rotationFor "north", yOffset := yOffset,
             stype := "slab", slabType := slabType }
  else if strContains baseName "carpet" then
    some { part := specialPartSlab, rotation := rotationFor "north", yOffset := 16,
           stype := "carpet" }
  else none
/-- `self.skip_blocks`: base names of non-solid blocks that are skipped. -/
def skipBlocks : List String := [
  "torch",
  "wall_torch",
  "soul_torch",
  "soul_wall_torch",
  "redstone_torch",
  "redstone_wall_torch",
  "lantern",
  "soul_lantern",
  "candle",
  "candle_cake",
  "white_candle",
  "orange_candle",
  "magenta_candle",
  "light_blue_candle",
  "yellow_candle",
  "lime_candle",
  "pink_candle",
  "gray_candle",
  "light_gray_candle",
  "cyan_candle",
  "purple_candle",
  "blue_candle",
  "brown_candle",
  "green_candle",
  "red_candle",
  "black_candle",
  "oak_sign",
  "spruce_sign",
  "birch_sign",
  "jungle_sign",
  "acacia_sign",
  "dark_oak_sign",
  "mangrove_sign",
  "cherry_sign",
  "bamboo_sign",
  "crimson_sign",
  "warped_sign",
  "oak_wall_sign",
  "spruce_wall_sign",
  "birch_wall_sign",
  "jungle_wall_sign",
  "acacia_wall_sign",
  "dark_oak_wall_sign",
  "mangrove_wall_sign",
  "cherry_wall_sign",
  "bamboo_wall_sign",
  "crimson_wall_sign",
  "warped_wall_sign",
  "oak_hanging_sign",
  "spruce_hanging_sign",
  "birch_hanging_sign",
  "jungle_hanging_sign",
  "acacia_hanging_sign",
  "dark_oak_hanging_sign",
  "mangrove_hanging_sign",
  "cherry_hanging_sign",
  "bamboo_hanging_sign",
  "crimson_hanging_sign",
  "warped_hanging_sign",
  "stone_button",
  "oak_button",
  "spruce_button",
  "birch_button",
  "jungle_button",
  "acacia_button",
  "dark_oak_button",
  "mangrove_button",
  "cherry_button",
  "bamboo_button",
  "crimson_button",
  "warped_button",
  "polished_blackstone_button",
  "stone_pressure_plate",
  "oak_pressure_plate",
  "spruce_pressure_plate",
  "birch_pressure_plate",
  "jungle_pressure_plate",
  "acacia_pressure_plate",
  "dark_oak_pressure_plate",
  "mangrove_pressure_plate",
  "cherry_pressure_plate",
  "bamboo_pressure_plate",
  "crimson_pressure_plate",
  "warped_pressure_plate",
  "light_weighted_pressure_plate",
  "heavy_weighted_pressure_plate",
  "polished_blackstone_pressure_plate",
  "redstone_wire",
  "repeater",
  "comparator",
  "lever",
  "tripwire",
  "tripwire_hook",
  "rail",
  "powered_rail",
  "detector_rail",
  "activator_rail",
  "oak_door",
  "spruce_door",
  "birch_door",
  "jungle_door",
  "acacia_door",
  "dark_oak_door",
  "mangrove_door",
  "cherry_door",
  "bamboo_door",
  "crimson_door",
  "warped_door",
  "iron_door",
  "oak_trapdoor",
  "spruce_trapdoor",
  "birch_trapdoor",
  "jungle_trapdoor",
  "acacia_trapdoor",
  "dark_oak_trapdoor",
  "mangrove_trapdoor",
  "cherry_trapdoor",
  "bamboo_trapdoor",
  "crimson_trapdoor",
  "warped_trapdoor",
  "iron_trapdoor",
  "dandelion",
  "poppy",
  "blue_orchid",
  "allium",
  "azure_bluet",
  "red_tulip",
  "orange_tulip",
  "white_tulip",
  "pink_tulip",
  "oxeye_daisy",
  "cornflower",
  "lily_of_the_valley",
  "wither_rose",
  "torchflower",
  "pitcher_plant",
  "sunflower",
  "lilac",
  "rose_bush",
  "peony",
  "grass",
  "tall_grass",
  "fern",
  "large_fern",
  "dead_bush",
  "seagrass",
  "tall_seagrass",
  "kelp",
  "kelp_plant",
  "sweet_berry_bush",
  "cave_vines",
  "cave_vines_plant",
  "hanging_roots",
  "spore_blossom",
  "glow_lichen",
  "sculk_vein",
  "oak_sapling",
  "spruce_sapling",
  "birch_sapling",
  "jungle_sapling",
  "acacia_sapling",
  "dark_oak_sapling",
  "mangrove_propagule",
  "cherry_sapling",
  "bamboo_sapling",
  "ladder",
  "vine",
  "sugar_cane",
  "lily_pad",
  "cobweb",
  "string",
  "fire",
  "soul_fire",
  "end_rod",
  "lightning_rod",
  "chain",
  "scaffolding",
  "pointed_dripstone",
  "flower_pot",
  "potted_oak_sapling",
  "potted_spruce_sapling",
  "potted_birch_sapling",
  "potted_jungle_sapling",
  "potted_acacia_sapling",
  "potted_dark_oak_sapling",
  "potted_mangrove_propagule",
  "potted_cherry_sapling",
  "potted_fern",
  "potted_dandelion",
  "potted_poppy",
  "potted_blue_orchid",
  "potted_allium",
  "potted_azure_bluet",
  "potted_red_tulip",
  "potted_orange_tulip",
  "potted_white_tulip",
  "potted_pink_tulip",
  "potted_oxeye_daisy",
  "potted_cornflower",
  "potted_lily_of_the_valley",
  "potted_wither_rose",
  "potted_dead_bush",
  "potted_cactus",
  "potted_bamboo",
  "potted_crimson_fungus",
  "potted_warped_fungus",
  "potted_crimson_roots",
  "potted_warped_roots",
  "potted_azalea_bush",
  "potted_flowering_azalea_bush",
  "potted_torchflower",
  "wheat",
  "carrots",
  "potatoes",
  "beetroots",
  "nether_wart",
  "cocoa",
  "melon_stem",
  "pumpkin_stem",
  "attached_melon_stem",
  "attached_pumpkin_stem",
  "skeleton_skull",
  "skeleton_wall_skull",
  "wither_skeleton_skull",
  "wither_skeleton_wall_skull",
  "zombie_head",
  "zombie_wall_head",
  "player_head",
  "player_wall_head",
  "creeper_head",
  "creeper_wall_head",
  "dragon_head",
  "dragon_wall_head",
  "piglin_head",
  "piglin_wall_head",
  "white_banner",
  "orange_banner",
  "magenta_banner",
  "light_blue_banner",
  "yellow_banner",
  "lime_banner",
  "pink_banner",
  "gray_banner",
  "light_gray_banner",
  "cyan_banner",
  "purple_banner",
  "blue_banner",
  "brown_banner",
  "green_banner",
  "red_banner",
  "black_banner",
  "white_wall_banner",
  "orange_wall_banner",
  "magenta_wall_banner",
  "light_blue_wall_banner",
  "yellow_wall_banner",
  "lime_wall_banner",
  "pink_wall_banner",
  "gray_wall_banner",
  "light_gray_wall_banner",
  "cyan_wall_banner",
  "purple_wall_banner",
  "blue_wall_banner",
  "brown_wall_banner",
  "green_wall_banner",
  "red_wall_banner",
  "black_wall_banner",
  "brewing_stand",
  "cauldron",
  "water_cauldron",
  "lava_cauldron",
  "powder_snow_cauldron",
  "anvil",
  "chipped_anvil",
  "damaged_anvil",
  "oak_fence",
  "spruce_fence",
  "birch_fence",
  "jungle_fence",
  "acacia_fence",
  "dark_oak_fence",
  "mangrove_fence",
  "cherry_fence",
  "bamboo_fence",
  "crimson_fence",
  "warped_fence",
  "nether_brick_fence",
  "oak_fence_gate",
  "spruce_fence_gate",
  "birch_fence_gate",
  "jungle_fence_gate",
  "acacia_fence_gate",
  "dark_oak_fence_gate",
  "mangrove_fence_gate",
  "cherry_fence_gate",
  "bamboo_fence_gate",
  "crimson_fence_gate",
  "warped_fence_gate",
  "cobblestone_wall",
  "mossy_cobblestone_wall",
  "stone_brick_wall",
  "mossy_stone_brick_wall",
  "granite_wall",
  "diorite_wall",
  "andesite_wall",
  "brick_wall",
  "sandstone_wall",
  "red_sandstone_wall",
  "prismarine_wall",
  "nether_brick_wall",
  "red_nether_brick_wall",
  "blackstone_wall",
  "polished_blackstone_wall",
  "polished_blackstone_brick_wall",
  "end_stone_brick_wall",
  "cobbled_deepslate_wall",
  "polished_deepslate_wall",
  "deepslate_brick_wall",
  "deepslate_tile_wall",
  "mud_brick_wall"]

/-- The `block_to_color` dict literal inside `_get_color_from_block_name`. -/
def blockToColor : List (String × Int) := [
  ("air", -1),
  ("stone", 71),
  ("cobblestone", 72),
  ("mossy_cobblestone", 378),
  ("granite", 25),
  ("polished_granite", 25),
  ("diorite", 7),
  ("polished_diorite", 7),
  ("andesite", 8),
  ("polished_andesite", 8),
  ("grass_block", 10),
  ("dirt", 6),
  ("coarse_dirt", 6),
  ("podzol", 6),
  ("bedrock", 0),
  ("sand", 19),
  ("red_sand", 25),
  ("gravel", 71),
  ("sandstone", 19),
  ("red_sandstone", 484),
  ("smooth_sandstone", 19),
  ("gold_ore", 14),
  ("deepslate_gold_ore", 14),
  ("nether_gold_ore", 14),
  ("iron_ore", 71),
  ("deepslate_iron_ore", 71),
  ("coal_ore", 0),
  ("deepslate_coal_ore", 0),
  ("diamond_ore", 41),
  ("deepslate_diamond_ore", 41),
  ("emerald_ore", 10),
  ("deepslate_emerald_ore", 10),
  ("lapis_ore", 1),
  ("deepslate_lapis_ore", 1),
  ("redstone_ore", 4),
  ("deepslate_redstone_ore", 4),
  ("copper_ore", 484),
  ("deepslate_copper_ore", 484),
  ("gold_block", 14),
  ("iron_block", 71),
  ("diamond_block", 41),
  ("emerald_block", 10),
  ("lapis_block", 1),
  ("redstone_block", 4),
  ("coal_block", 0),
  ("copper_block", 484),
  ("raw_copper_block", 484),
  ("raw_iron_block", 71),
  ("raw_gold_block", 14),
  ("netherite_block", 0),
  ("ancient_debris", 6),
  ("amethyst_block", 85),
  ("budding_amethyst", 85),
  ("glass", 47),
  ("glass_pane", 47),
  ("tinted_glass", 8),
  ("white_stained_glass", 47),
  ("white_stained_glass_pane", 47),
  ("orange_stained_glass", 182),
  ("orange_stained_glass_pane", 182),
  ("magenta_stained_glass", 113),
  ("magenta_stained_glass_pane", 113),
  ("light_blue_stained_glass", 41),
  ("light_blue_stained_glass_pane", 41),
  ("yellow_stained_glass", 46),
  ("yellow_stained_glass_pane", 46),
  ("lime_stained_glass", 35),
  ("lime_stained_glass_pane", 35),
  ("pink_stained_glass", 113),
  ("pink_stained_glass_pane", 113),
  ("gray_stained_glass", 40),
  ("gray_stained_glass_pane", 40),
  ("light_gray_stained_glass", 40),
  ("light_gray_stained_glass_pane", 40),
  ("cyan_stained_glass", 41),
  ("cyan_stained_glass_pane", 41),
  ("purple_stained_glass", 52),
  ("purple_stained_glass_pane", 52),
  ("blue_stained_glass", 33),
  ("blue_stained_glass_pane", 33),
  ("brown_stained_glass", 111),
  ("brown_stained_glass_pane", 111),
  ("green_stained_glass", 34),
  ("green_stained_glass_pane", 34),
  ("red_stained_glass", 36),
  ("red_stained_glass_pane", 36),
  ("black_stained_glass", 40),
  ("black_stained_glass_pane", 40),
  ("white_wool", 15),
  ("orange_wool", 25),
  ("magenta_wool", 5),
  ("light_blue_wool", 9),
  ("yellow_wool", 14),
  ("lime_wool", 27),
  ("pink_wool", 13),
  ("gray_wool", 8),
  ("light_gray_wool", 7),
  ("cyan_wool", 11),
  ("purple_wool", 85),
  ("blue_wool", 1),
  ("brown_wool", 6),
  ("green_wool", 2),
  ("red_wool", 4),
  ("black_wool", 0),
  ("white_carpet", 15),
  ("orange_carpet", 25),
  ("magenta_carpet", 5),
  ("light_blue_carpet", 9),
  ("yellow_carpet", 14),
  ("lime_carpet", 27),
  ("pink_carpet", 13),
  ("gray_carpet", 8),
  ("light_gray_carpet", 7),
  ("cyan_carpet", 11),
  ("purple_carpet", 85),
  ("blue_carpet", 1),
  ("brown_carpet", 6),
  ("green_carpet", 2),
  ("red_carpet", 4),
  ("black_carpet", 0),
  ("moss_carpet", 10),
  ("white_concrete", 15),
  ("orange_concrete", 25),
  ("magenta_concrete", 5),
  ("light_blue_concrete", 9),
  ("yellow_concrete", 14),
  ("lime_concrete", 27),
  ("pink_concrete", 13),
  ("gray_concrete", 8),
  ("light_gray_concrete", 7),
  ("cyan_concrete", 11),
  ("purple_concrete", 85),
  ("blue_concrete", 1),
  ("brown_concrete", 6),
  ("green_concrete", 2),
  ("red_concrete", 4),
  ("black_concrete", 0),
  ("terracotta", 28),
  ("white_terracotta", 15),
  ("orange_terracotta", 25),
  ("magenta_terracotta", 5),
  ("light_blue_terracotta", 9),
  ("yellow_terracotta", 14),
  ("lime_terracotta", 27),
  ("pink_terracotta", 13),
  ("gray_terracotta", 8),
  ("light_gray_terracotta", 7),
  ("cyan_terracotta", 11),
  ("purple_terracotta", 85),
  ("blue_terracotta", 1),
  ("brown_terracotta", 6),
  ("green_terracotta", 2),
  ("red_terracotta", 4),
  ("black_terracotta", 0),
  ("oak_planks", 70),
  ("spruce_planks", 6),
  ("birch_planks", 19),
  ("jungle_planks", 70),
  ("acacia_planks", 484),
  ("dark_oak_planks", 6),
  ("mangrove_planks", 4),
  ("cherry_planks", 13),
  ("bamboo_planks", 14),
  ("crimson_planks", 320),
  ("warped_planks", 11),
  ("oak_log", 70),
  ("spruce_log", 6),
  ("birch_log", 15),
  ("jungle_log", 70),
  ("acacia_log", 484),
  ("dark_oak_log", 6),
  ("mangrove_log", 70),
  ("cherry_log", 13),
  ("crimson_stem", 320),
  ("warped_stem", 11),
  ("bamboo_block", 14),
  ("oak_leaves", 2),
  ("spruce_leaves", 288),
  ("birch_leaves", 10),
  ("jungle_leaves", 2),
  ("acacia_leaves", 2),
  ("dark_oak_leaves", 288),
  ("mangrove_leaves", 2),
  ("cherry_leaves", 13),
  ("azalea_leaves", 2),
  ("flowering_azalea_leaves", 13),
  ("netherrack", 320),
  ("nether_bricks", 320),
  ("red_nether_bricks", 320),
  ("soul_sand", 6),
  ("soul_soil", 6),
  ("basalt", 8),
  ("smooth_basalt", 8),
  ("blackstone", 0),
  ("polished_blackstone", 0),
  ("polished_blackstone_bricks", 0),
  ("glowstone", 326),
  ("shroomlight", 326),
  ("nether_wart_block", 320),
  ("warped_wart_block", 11),
  ("crying_obsidian", 85),
  ("respawn_anchor", 0),
  ("end_stone", 326),
  ("end_stone_bricks", 326),
  ("purpur_block", 85),
  ("purpur_pillar", 85),
  ("obsidian", 0),
  ("bricks", 320),
  ("stone_bricks", 71),
  ("mossy_stone_bricks", 378),
  ("cracked_stone_bricks", 72),
  ("chiseled_stone_bricks", 71),
  ("prismarine", 11),
  ("prismarine_bricks", 11),
  ("dark_prismarine", 288),
  ("sea_lantern", 41),
  ("ice", 41),
  ("packed_ice", 41),
  ("blue_ice", 41),
  ("snow_block", 15),
  ("snow", 15),
  ("powder_snow", 15),
  ("clay", 71),
  ("mud", 6),
  ("mud_bricks", 6),
  ("packed_mud", 6),
  ("water", 73),
  ("lava", 25),
  ("fire", 25),
  ("soul_fire", 11),
  ("tnt", 4),
  ("bookshelf", 70),
  ("hay_block", 14),
  ("sponge", 14),
  ("wet_sponge", 14),
  ("melon", 10),
  ("pumpkin", 25),
  ("carved_pumpkin", 25),
  ("jack_o_lantern", 25),
  ("cactus", 288),
  ("bamboo", 10),
  ("moss_block", 10),
  ("moss_carpet", 10),
  ("sculk", 11),
  ("sculk_catalyst", 11),
  ("honeycomb_block", 14),
  ("honey_block", 14),
  ("slime_block", 27),
  ("deepslate", 72),
  ("cobbled_deepslate", 72),
  ("polished_deepslate", 72),
  ("deepslate_bricks", 72),
  ("deepslate_tiles", 72),
  ("chiseled_deepslate", 72),
  ("reinforced_deepslate", 72),
  ("tuff", 71),
  ("calcite", 15),
  ("dripstone_block", 19),
  ("quartz_block", 15),
  ("quartz_bricks", 15),
  ("quartz_pillar", 15),
  ("chiseled_quartz_block", 15),
  ("smooth_quartz", 15),
  ("oak_stairs", 70),
  ("spruce_stairs", 6),
  ("birch_stairs", 19),
  ("jungle_stairs", 70),
  ("acacia_stairs", 484),
  ("dark_oak_stairs", 6),
  ("mangrove_stairs", 70),
  ("cherry_stairs", 13),
  ("bamboo_stairs", 14),
  ("crimson_stairs", 320),
  ("warped_stairs", 11),
  ("stone_stairs", 71),
  ("cobblestone_stairs", 72),
  ("mossy_cobblestone_stairs", 378),
  ("stone_brick_stairs", 71),
  ("mossy_stone_brick_stairs", 378),
  ("granite_stairs", 25),
  ("polished_granite_stairs", 25),
  ("diorite_stairs", 7),
  ("polished_diorite_stairs", 7),
  ("andesite_stairs", 8),
  ("polished_andesite_stairs", 8),
  ("brick_stairs", 320),
  ("sandstone_stairs", 19),
  ("red_sandstone_stairs", 484),
  ("smooth_sandstone_stairs", 19),
  ("smooth_red_sandstone_stairs", 484),
  ("prismarine_stairs", 11),
  ("prismarine_brick_stairs", 11),
  ("dark_prismarine_stairs", 288),
  ("nether_brick_stairs", 320),
  ("red_nether_brick_stairs", 320),
  ("quartz_stairs", 15),
  ("smooth_quartz_stairs", 15),
  ("purpur_stairs", 85),
  ("end_stone_brick_stairs", 326),
  ("blackstone_stairs", 0),
  ("polished_blackstone_stairs", 0),
  ("polished_blackstone_brick_stairs", 0),
  ("deepslate_brick_stairs", 72),
  ("deepslate_tile_stairs", 72),
  ("cobbled_deepslate_stairs", 72),
  ("cut_copper_stairs", 484),
  ("exposed_cut_copper_stairs", 378),
  ("weathered_cut_copper_stairs", 10),
  ("oxidized_cut_copper_stairs", 11),
  ("mud_brick_stairs", 6),
  ("oak_slab", 70),
  ("spruce_slab", 6),
  ("birch_slab", 19),
  ("jungle_slab", 70),
  ("acacia_slab", 484),
  ("dark_oak_slab", 6),
  ("mangrove_slab", 70),
  ("cherry_slab", 13),
  ("bamboo_slab", 14),
  ("crimson_slab", 320),
  ("warped_slab", 11),
  ("stone_slab", 71),
  ("cobblestone_slab", 72),
  ("mossy_cobblestone_slab", 378),
  ("stone_brick_slab", 71),
  ("mossy_stone_brick_slab", 378),
  ("granite_slab", 25),
  ("polished_granite_slab", 25),
  ("diorite_slab", 7),
  ("polished_diorite_slab", 7),
  ("andesite_slab", 8),
  ("polished_andesite_slab", 8),
  ("brick_slab", 320),
  ("sandstone_slab", 19),
  ("red_sandstone_slab", 484),
  ("smooth_sandstone_slab", 19),
  ("smooth_red_sandstone_slab", 484),
  ("cut_sandstone_slab", 19),
  ("cut_red_sandstone_slab", 484),
  ("prismarine_slab", 11),
  ("prismarine_brick_slab", 11),
  ("dark_prismarine_slab", 288),
  ("nether_brick_slab", 320),
  ("red_nether_brick_slab", 320),
  ("quartz_slab", 15),
  ("smooth_quartz_slab", 15),
  ("purpur_slab", 85),
  ("end_stone_brick_slab", 326),
  ("blackstone_slab", 0),
  ("polished_blackstone_slab", 0),
  ("polished_blackstone_brick_slab", 0),
  ("deepslate_brick_slab", 72),
  ("deepslate_tile_slab", 72),
  ("cobbled_deepslate_slab", 72),
  ("cut_copper_slab", 484),
  ("exposed_cut_copper_slab", 378),
  ("weathered_cut_copper_slab", 10),
  ("oxidized_cut_copper_slab", 11),
  ("mud_brick_slab", 6),
  ("smooth_stone_slab", 71),
  ("glass_pane", 47),
  ("iron_bars", 72),
  ("white_stained_glass_pane", 47),
  ("orange_stained_glass_pane", 182),
  ("magenta_stained_glass_pane", 113),
  ("light_blue_stained_glass_pane", 41),
  ("yellow_stained_glass_pane", 46),
  ("lime_stained_glass_pane", 35),
  ("pink_stained_glass_pane", 113),
  ("gray_stained_glass_pane", 40),
  ("light_gray_stained_glass_pane", 40),
  ("cyan_stained_glass_pane", 41),
  ("purple_stained_glass_pane", 52),
  ("blue_stained_glass_pane", 33),
  ("brown_stained_glass_pane", 111),
  ("green_stained_glass_pane", 34),
  ("red_stained_glass_pane", 36),
  ("black_stained_glass_pane", 40)]

/-- The `name_to_id` dict literal inside `_block_name_to_id`. -/
def nameToId : List (String × Nat) := [
  ("air", 0),
  ("stone", 1),
  ("grass_block", 2),
  ("dirt", 3),
  ("cobblestone", 4),
  ("bedrock", 7),
  ("water", 8),
  ("lava", 10),
  ("sand", 12),
  ("gravel", 13),
  ("gold_ore", 14),
  ("iron_ore", 15),
  ("coal_ore", 16),
  ("glass", 20),
  ("glass_pane", 20),
  ("tinted_glass", 20),
  ("gold_block", 41),
  ("iron_block", 42),
  ("bricks", 45),
  ("tnt", 46),
  ("obsidian", 49),
  ("diamond_ore", 56),
  ("diamond_block", 57),
  ("redstone_ore", 73),
  ("ice", 79),
  ("snow_block", 80),
  ("clay", 82),
  ("netherrack", 87),
  ("glowstone", 89),
  ("stone_bricks", 98),
  ("emerald_block", 133),
  ("redstone_block", 152),
  ("quartz_block", 155),
  ("coal_block", 173),
  ("packed_ice", 174)]

/-- `self.wool_color_mappings`: dye data value (0-15) to LDraw color. -/
def woolColorMappings : List (Nat × Int) := [(0, 15), (1, 25), (2, 13), (3, 9), (4, 14), (5, 27), (6, 13), (7, 8), (8, 7), (9, 11), (10, 5), (11, 1), (12, 6), (13, 2), (14, 4), (15, 0)]

/-- `self.block_colors`: legacy numeric block id to LDraw color. -/
def blockColors : List (Nat × Int) := [
  (1, 71),
  (2, 10),
  (3, 6),
  (4, 72),
  (5, 70),
  (6, 10),
  (7, 0),
  (8, 73),
  (9, 73),
  (10, 25),
  (11, 25),
  (12, 19),
  (13, 71),
  (14, 14),
  (15, 71),
  (16, 0),
  (17, 70),
  (18, 2),
  (19, 14),
  (20, 47),
  (21, 1),
  (22, 1),
  (23, 72),
  (24, 19),
  (25, 70),
  (26, 4),
  (27, 14),
  (28, 70),
  (29, 27),
  (30, 15),
  (31, 2),
  (32, 6),
  (33, 70),
  (34, 19),
  (35, 15),
  (37, 14),
  (38, 4),
  (39, 6),
  (40, 4),
  (41, 14),
  (42, 71),
  (43, 71),
  (44, 71),
  (45, 320),
  (46, 4),
  (47, 70),
  (48, 378),
  (49, 0),
  (50, 25),
  (51, 25),
  (52, 9),
  (53, 70),
  (54, 70),
  (55, 4),
  (56, 41),
  (57, 41),
  (58, 70),
  (59, 326),
  (60, 6),
  (61, 72),
  (62, 72),
  (63, 70),
  (64, 70),
  (65, 70),
  (66, 72),
  (67, 72),
  (68, 70),
  (69, 72),
  (70, 71),
  (71, 71),
  (72, 70),
  (73, 4),
  (74, 4),
  (75, 4),
  (76, 4),
  (77, 71),
  (78, 15),
  (79, 41),
  (80, 15),
  (81, 288),
  (82, 71),
  (83, 27),
  (84, 70),
  (85, 70),
  (86, 25),
  (87, 320),
  (88, 6),
  (89, 326),
  (90, 85),
  (91, 25),
  (92, 15),
  (93, 71),
  (94, 71),
  (95, 47),
  (96, 70),
  (97, 71),
  (98, 71),
  (99, 6),
  (100, 4),
  (101, 72),
  (102, 47),
  (103, 10),
  (104, 2),
  (105, 2),
  (106, 2),
  (107, 70),
  (108, 320),
  (109, 71),
  (110, 379),
  (111, 10),
  (112, 320),
  (113, 320),
  (114, 320),
  (115, 4),
  (116, 41),
  (117, 85),
  (118, 72),
  (119, 0),
  (120, 378),
  (121, 326),
  (122, 0),
  (123, 25),
  (124, 25),
  (125, 70),
  (126, 70),
  (127, 2),
  (128, 19),
  (129, 10),
  (130, 85),
  (131, 70),
  (132, 7),
  (133, 10),
  (134, 70),
  (135, 191),
  (136, 70),
  (137, 25),
  (138, 41),
  (139, 72),
  (140, 70),
  (141, 2),
  (142, 2),
  (143, 70),
  (144, 15),
  (145, 72),
  (146, 70),
  (147, 14),
  (148, 71),
  (149, 71),
  (150, 71),
  (151, 70),
  (152, 4),
  (153, 320),
  (154, 72),
  (155, 15),
  (156, 15),
  (157, 70),
  (158, 72),
  (159, 15),
  (160, 47),
  (161, 10),
  (162, 70),
  (163, 484),
  (164, 6),
  (165, 27),
  (166, 47),
  (167, 71),
  (168, 11),
  (169, 41),
  (170, 14),
  (171, 15),
  (172, 28),
  (173, 0),
  (174, 41),
  (175, 2),
  (176, 15),
  (177, 15),
  (178, 70),
  (179, 484),
  (180, 484),
  (181, 484),
  (182, 484),
  (183, 70),
  (184, 191),
  (185, 70),
  (186, 6),
  (187, 484),
  (188, 70),
  (189, 191),
  (190, 70),
  (191, 6),
  (192, 484),
  (193, 70),
  (194, 191),
  (195, 70),
  (196, 484),
  (197, 6),
  (198, 4),
  (199, 85),
  (200, 85),
  (201, 85),
  (202, 85),
  (203, 85),
  (204, 85),
  (205, 85),
  (206, 326),
  (207, 2),
  (208, 6),
  (209, 0),
  (210, 25),
  (211, 27),
  (212, 41),
  (213, 25),
  (214, 320),
  (215, 320),
  (216, 15),
  (217, 85),
  (218, 72),
  (219, 15),
  (220, 25),
  (221, 5),
  (222, 9),
  (223, 14),
  (224, 27),
  (225, 13),
  (226, 8),
  (227, 7),
  (228, 11),
  (229, 85),
  (230, 1),
  (231, 6),
  (232, 2),
  (233, 4),
  (234, 0),
  (235, 15),
  (236, 25),
  (237, 5),
  (238, 9),
  (239, 14),
  (240, 27),
  (241, 13),
  (242, 8),
  (243, 7),
  (244, 11),
  (245, 85),
  (246, 1),
  (247, 6),
  (248, 2),
  (249, 4),
  (250, 0),
  (251, 15),
  (252, 15),
  (255, 72)]

/-- `self.brick_sizes`: `(width, length)` to catalog part number. -/
def brickSizes : List ((Nat × Nat) × String) := [
  ((1, 8), "3008"),
  ((1, 6), "3009"),
  ((1, 4), "3010"),
  ((1, 3), "3622"),
  ((1, 2), "3004"),
  ((1, 1), "3005"),
  ((2, 8), "3007"),
  ((2, 6), "2456"),
  ((2, 4), "3001"),
  ((2, 3), "3002"),
  ((2, 2), "3003")]

/-- `_is_skip_block`. -/
def isSkipBlock (blockName : String) : Bool :=
  skipBlocks.contains (stripBlockName blockName)

/-- `_get_color_from_block_name`: direct name-to-color lookup with default
light gray `7`; the identity `"air"` maps to the skip sentinel `-1`. -/
def getColorFromBlockName (blockName : String) : Int :=
  dictGet blockToColor (stripBlockName blockName) 7

/-- `_block_name_to_id`: base name to legacy numeric id, defaulting to `1`. -/
def blockNameToId (blockName : String) : Nat :=
  dictGet nameToId (stripBlockName blockName) 1

/-- The `color_data_blocks` set inside `get_brick_info`. -/
def colorDataBlocks : List Nat := [35, 95, 159, 160, 171, 251, 252]

/-- `get_brick_info`: legacy id/data-value to `(brick part, color)`; ids in
`colorDataBlocks` take their color from the dye table when the data value
is present there. -/
def getBrickInfo (blockId dataValue : Nat) : String × Int :=
  let brickType := defaultBrick
  let colorId := dictGet blockColors blockId 7
  let colorId2 :=
    if colorDataBlocks.contains blockId then
      match dictGet? woolColorMappings dataValue with
      | some c => c
      | none => colorId
    else colorId
  (brickType, colorId2)

/-- The sign-correction `data[i] if data[i] >= 0 else data[i] + 256` applied to
every byte read by `_decode_varint_array`. -/
def toUByte (b : Int) : Nat := (if b ≥ 0 then b else b + 256).toNat

/-- The inner `while True` loop of `_decode_varint_array`: consume the bytes of
one varint value, accumulating 7 low bits per byte
(`value |= (byte & 0x7F) << shift`), until a byte without the continuation
bit or the end of the input; returns the accumulated value and the
remaining bytes. -/
def readVarint : List Int → Nat → Nat → Nat × List Int
  | [], value, _ => (value, [])
  | b :: rest, value, shift =>
    let byte := toUByte b
    let value2 := value ||| ((byte &&& 0x7F) <<< shift)
    if byte &&& 0x80 == 0 then (value2, rest)
    else readVarint rest value2 (shift + 7)

/-- The outer `while i < len(data) and len(result) < expected_length` loop of
`_decode_varint_array`: each iteration reads one (possibly truncated) value
and appends it.  The input length serves as structural fuel so that the
kernel can evaluate the definition; each iteration consumes at least one
byte, so the fuel never runs out (`decodeVarintFuel_fuel_free` below). -/
def decodeVarintFuel : Nat → List Int → Nat → List Nat
  | _, [], _ => []
  | _, _ :: _, 0 => []
  | 0, _ :: _, _ + 1 => []
  | fuel + 1, b :: rest, Nat.succ n =>
    let p := readVarint (b :: rest) 0 0
    p.1 :: decodeVarintFuel fuel p.2 n

/-- `_decode_varint_array`. -/
def decodeVarintArray (data : List Int) (expectedLength : Nat) : List Nat :=
  decodeVarintFuel data.length data expectedLength

/-- Modelled from the spec: the varint encoding itself (7 data bits per byte,
least-significant group first, continuation bit set on every byte except the
last).  The repository contains only the decoder; the encoder is the
inverse described in sections 4.1 and 8 of the spec, and is used to state
the round-trip / truncation properties.  Structural fuel again keeps the
definition kernel-evaluable; `v + 1` is always enough since the argument
at least halves every step. -/
def encodeVarintFuel : Nat → Nat → List Int
  | 0, v => [((v % 128 : Nat) : Int)]
  | fuel + 1, v =>
    if v < 128 then [(v : Int)]
    else ((v % 128 + 128 : Nat) : Int) :: encodeVarintFuel fuel (v / 128)

/-- Modelled from the spec: varint encoding of one value. -/
def encodeVarint (v : Nat) : List Int := encodeVarintFuel (v + 1) v

/-- Modelled from the spec: concatenated varint encodings of a list of values. -/
def encodeVarintList : List Nat → List Int
  | [] => []
  | v :: vs => encodeVarint v ++ encodeVarintList vs

deriving instance DecidableEq for Except

/-- The palette / block-data containers of a modern `.schem` root compound, as
consumed by `_load_schem_format`.  Palette and data values are abstracted to
opaque handles (the selection logic never inspects them): `blocks` is
`some (pal?, dat?)` when a `Blocks` sub-compound is present, with its
optional `Palette` / `Data` entries; `rootPalette` / `rootBlockData` model
the root-level `Palette` / `BlockData` keys; `otherKeys` lists the
remaining root keys in iteration order (for the case-insensitive
fallback). -/
structure SchemRoot where
  blocks : Option (Option Nat × Option Nat)
  rootPalette : Option Nat
  rootBlockData : Option Nat
  otherKeys : List (String × Nat)
deriving DecidableEq

/-- The palette/data resolution of `_load_schem_format` (lines 539-572),
returning the chosen `(palette, block_data)` pair or the `KeyError`
message; the logic mirrors the source's sequence of conditional
assignments. -/
def findPaletteData (r : SchemRoot) : Except String (Nat × Nat) :=
  let palette1 : Option Nat := match r.blocks with
    | some bd => bd.1
    | none => none
  let blockData1 : Option Nat := match r.blocks with
    | some bd => bd.2
    | none => none
  let palette2 := match palette1 with
    | some p => some p
    | none => r.rootPalette
  let blockData2 := match blockData1 with
    | some d => some d
    | none => r.rootBlockData
  let palette3 := match palette2 with
    | some p => some p
    | none => (r.otherKeys.find? (fun kv => pyLower kv.1 == "palette")).map (fun kv => kv.2)
  match palette3 with
  | none => .error "Could not find Palette in .schem file"
  | some p =>
    match blockData2 with
    | none => .error "Could not find BlockData in .schem file"
    | some d => .ok (p, d)

/-- Modelled from the words of the spec sentence behind claim C5, for
comparison with `findPaletteData`: rule (1) applies only when the `Blocks`
substructure contains BOTH `Palette` and `Data` sub-entries, and then both
are taken from there; otherwise rule (2) root-level `Palette`/`BlockData`;
otherwise rule (3) case-insensitive palette search; missing palette or
missing data after all fallbacks fails. -/
def findPaletteDataClaim (r : SchemRoot) : Except String (Nat × Nat) :=
  match r.blocks with
  | some (some p, some d) => .ok (p, d)
  | _ =>
    match r.rootPalette, r.rootBlockData with
    | some p, some d => .ok (p, d)
    | rp, rd =>
      let p3 := match rp with
        | some p => some p
        | none => (r.otherKeys.find? (fun kv => pyLower kv.1 == "palette")).map (fun kv => kv.2)
      match p3 with
      | none => .error "Could not find Palette in .schem file"
      | some p =>
        match rd with
        | none => .error "Could not find BlockData in .schem file"
        | some d => .ok (p, d)

/-- One emitted LDraw type-1 placement line, structured.  The source builds
the string directly with an f-string; `renderLine` below performs that
formatting. -/
structure LdrLine where
  color : Int
  x : ℚ
  y : ℚ
  z : ℚ
  rot : String
  part : String
deriving DecidableEq

/-- Python `f"{v:.2f}"` as applied to the emitted coordinates.  Every
coordinate the converter produces is integer-valued (each theorem using
`renderLine` on converter output establishes this), and for an
integer-valued float the rendering is the integer followed by `".00"`. -/
def fmt2 (q : ℚ) : String := toString q.num ++ ".00"

/-- The emission f-string
`f"1 {color_id} {x:.2f} {y:.2f} {z:.2f} {rotation} {brick_type}.dat"`
common to `_convert_standard`, `_convert_optimized` and `_emit_block_2x`. -/
def renderLine (ln : LdrLine) : String :=
  "1 " ++ toString ln.color ++ " " ++ fmt2 ln.x ++ " " ++ fmt2 ln.y ++ " " ++
    fmt2 ln.z ++ " " ++ ln.rot ++ " " ++ ln.part ++ ".dat"

/-- `_emit_block_2x`: the parts emitted for one voxel at scale 2.  All parts
use the identity rotation (the matrix literal bound to `identity` in the
source); `special_info.get("half"/"slab_type", "bottom")` is modelled by
treating the structure's empty-string default as an absent key. -/
def emitBlock2x (baseX baseY baseZ : ℚ) (colorId : Int) (si : Option SpecialInfo) :
    List LdrLine :=
  let identity := "1 0 0 0 1 0 0 0 1"
  match si with
  | some info =>
    if info.stype = "stair" then
      let half := if info.half = "" then "bottom" else info.half
      if half = "bottom" then
        [⟨colorId, baseX, baseY + 24, baseZ, identity, "3003"⟩,
         ⟨colorId, baseX, baseY + 16, baseZ, identity, "3022"⟩]
      else
        [⟨colorId, baseX, baseY, baseZ, identity, "3003"⟩,
         ⟨colorId, baseX, baseY + 24, baseZ, identity, "3022"⟩]
    else if info.stype = "slab" then
      let slabType := if info.slabType = "" then "bottom" else info.slabType
      if slabType = "bottom" then
        [⟨colorId, baseX, baseY + 24, baseZ, identity, "3003"⟩]
      else
        [⟨colorId, baseX, baseY, baseZ, identity, "3003"⟩]
    else if info.stype = "carpet" then
      [⟨colorId, baseX, baseY + 40, baseZ, identity, "3022"⟩]
    else
      [⟨colorId, baseX, baseY, baseZ, identity, "3003"⟩,
       ⟨colorId, baseX, baseY + 24, baseZ, identity, "3003"⟩]
  | none =>
    [⟨colorId, baseX, baseY, baseZ, identity, "3003"⟩,
     ⟨colorId, baseX, baseY + 24, baseZ, identity, "3003"⟩]

/-- The layer-major `for y: for z: for x:` loop order shared by every pass. -/
def scanOrder (height length width : Nat) : List Pos :=
  (List.range height).flatMap (fun y =>
    (List.range length).flatMap (fun z =>
      (List.range width).map (fun x => (y, z, x))))

/-- The flat `data_index = y * length * width + z * width + x`. -/
def gridIndex (length width : Nat) (p : Pos) : Nat :=
  p.1 * length * width + p.2.1 * width + p.2.2

/-- The per-voxel body of `_convert_standard`'s loop (modern-format branch,
`block_names` present): the placement lines emitted for one voxel — empty
for air and skip blocks, `_emit_block_2x`'s parts at scale 2, one part at
scale 1.  The legacy `blocks` grid entry equals
`_block_name_to_id(block_names[i])` (built that way by
`_load_schem_format`), so the `block_id == 0` air test reads the name
list. -/
def stdEmitVoxel (blockNames : List String) (width height length scale : Nat)
    (p : Pos) : List LdrLine :=
  let studSize : ℚ := 20 * scale
  let brickHeight : ℚ := 24 * scale
  match blockNames[gridIndex length width p]? with
  | none => []  -- out-of-grid read; unreachable when the name list fills the grid
  | some blockName =>
    if blockNameToId blockName = 0 then []
    else
      let colorId := getColorFromBlockName blockName
      if colorId = -1 then []
      else if isSkipBlock blockName then []
      else
        let specialInfo := getSpecialPartInfo blockName
        let ldrawX : ℚ := ((p.2.2 : ℚ) - (width : ℚ) / 2) * studSize
        let ldrawY : ℚ := -(p.1 : ℚ) * brickHeight
        let ldrawZ : ℚ := ((p.2.1 : ℚ) - (length : ℚ) / 2) * studSize
        if scale = 2 then
          emitBlock2x ldrawX ldrawY ldrawZ colorId specialInfo
        else
          match specialInfo with
          | some info =>
            [⟨colorId, ldrawX, ldrawY + info.yOffset, ldrawZ, info.rotation, info.part⟩]
          | none =>
            [⟨colorId, ldrawX, ldrawY, ldrawZ, "1 0 0 0 1 0 0 0 1", defaultBrick⟩]

/-- The modern-format branch of `_convert_standard`: the per-voxel emissions
accumulated in layer-major scan order. -/
def convertStandardLines (blockNames : List String) (width height length scale : Nat) :
    List LdrLine :=
  (scanOrder height length width).foldl
    (fun acc p => acc ++ stdEmitVoxel blockNames width height length scale p) []

/-- A region emitted by `_convert_optimized` at scale 1: the axis-aligned box
of merged cells (`zLen`/`xLen` are the Z- and X-extents, the Y-extent is
always 1) together with the emitted part data.  `info` is `some` exactly
for the single-cell regions of the final special-block pass. -/
structure Region where
  y : Nat
  z : Nat
  x : Nat
  zLen : Nat
  xLen : Nat
  color : Int
  part : String
  info : Option SpecialInfo
deriving DecidableEq

/-- The cells covered by a region. -/
def coversB (r : Region) (p : Pos) : Bool :=
  (p.1 == r.y) && decide (r.z ≤ p.2.1) && decide (p.2.1 < r.z + r.zLen) &&
    decide (r.x ≤ p.2.2) && decide (p.2.2 < r.x + r.xLen)

/-- The classified-grid input of the merge loops: the `color_grid` array
(`-1` = skip), the `special_blocks` array, and the special-pass emission
data (re-derived from `block_names` by the source's final pass), abstracted
over how the classification was produced. -/
structure ClassGrid where
  width : Nat
  height : Nat
  length : Nat
  color : Pos → Int
  special : Pos → Bool
  specEmit : Pos → Option SpecialInfo

/-- The mutable state of `_convert_optimized`: the `used` array and the
regions emitted so far (the source emits lines immediately; the geometry
is kept here and rendered by `regionToLine`). -/
structure MergeState where
  used : Pos → Bool
  regions : List Region

/-- `x_lengths`: available brick lengths in the X direction, largest first. -/
def xLengths : List Nat := [8, 6, 4, 3, 2, 1]

/-- The inner validity check of the scale-1 X-run scan (lines 1280-1284):
every cell of the candidate run must be unused and have the run's color.
The source does not consult `special_blocks` here. -/
def runOk (g : ClassGrid) (used : Pos → Bool) (cid : Int) (y z x n : Nat) : Bool :=
  (List.range n).all (fun dx => !used (y, z, x + dx) && (g.color (y, z, x + dx) == cid))

/-- The X-run search of the scale-1 merge loop (lines 1276-1287): try the
catalog lengths largest-first, keep the first whose run fits the grid and
passes `runOk`; `best_x_len` stays 1 when none does. -/
def bestXLenOf (g : ClassGrid) (used : Pos → Bool) (cid : Int) (p : Pos) : Nat :=
  (xLengths.find? (fun n =>
    decide (p.2.2 + n ≤ g.width) && runOk g used cid p.1 p.2.1 p.2.2 n)).getD 1

/-- The opportunistic Z-widening of the scale-1 merge loop (lines 1289-1299):
widen to 2 exactly when the next row exists, the X-run is at least 2, the
whole row at `z+1` is compatible, and the catalog has a `(2, x_len)`
entry. -/
def bestZLenOf (g : ClassGrid) (used : Pos → Bool) (cid : Int) (p : Pos)
    (bestXLen : Nat) : Nat :=
  if (decide (p.2.1 + 1 < g.length) && decide (2 ≤ bestXLen) &&
      runOk g used cid p.1 (p.2.1 + 1) p.2.2 bestXLen) &&
     (dictGet? brickSizes (2, bestXLen)).isSome then 2 else 1

/-- The region emitted for one unvisited solid cell by the scale-1 merge loop
(lines 1301-1325): the chosen box with its catalog part, falling back to
the 1x1 default part with extents reset to 1 when the size is not
cataloged (lines 1305-1308). -/
def mergeRegionOf (g : ClassGrid) (used : Pos → Bool) (p : Pos) : Region :=
  match dictGet? brickSizes
      (bestZLenOf g used (g.color p) p (bestXLenOf g used (g.color p) p),
        bestXLenOf g used (g.color p) p) with
  | some b =>
    ⟨p.1, p.2.1, p.2.2,
      bestZLenOf g used (g.color p) p (bestXLenOf g used (g.color p) p),
      bestXLenOf g used (g.color p) p, g.color p, b, none⟩
  | none => ⟨p.1, p.2.1, p.2.2, 1, 1, g.color p, defaultBrick, none⟩

/-- One iteration of the scale-1 merge loop body of `_convert_optimized`
(lines 1230-1325, `scale == 1` branch): skip visited, skipped or special
cells; otherwise emit `mergeRegionOf` and mark exactly its cells used. -/
def mergeStep (g : ClassGrid) (s : MergeState) (p : Pos) : MergeState :=
  if s.used p || g.color p == -1 || g.special p then s
  else
    { used := fun q => s.used q || coversB (mergeRegionOf g s.used p) q
      regions := s.regions ++ [mergeRegionOf g s.used p] }

/-- One iteration of the final special-block pass of `_convert_optimized`
(lines 1329-1368): an unused special cell with a color becomes its own
1x1 region carrying its shape data; a missing or empty block name or a
shape re-derivation failure is skipped. -/
def specialStep (g : ClassGrid) (s : MergeState) (p : Pos) : MergeState :=
  if s.used p || !g.special p || g.color p == -1 then s
  else
    match g.specEmit p with
    | none => s
    | some info =>
      let region : Region := ⟨p.1, p.2.1, p.2.2, 1, 1, g.color p, info.part, some info⟩
      { used := fun q => s.used q || coversB region q
        regions := s.regions ++ [region] }

/-- Run one pass (a loop body applied along a scan order). -/
def runPass (step : MergeState → Pos → MergeState) : List Pos → MergeState → MergeState
  | [], s => s
  | p :: ps, s => runPass step ps (step s p)

/-- The two passes of `_convert_optimized` at scale 1: the greedy merge scan
followed by the special-block pass, both in layer-major order, starting
from an all-false `used` array. -/
def runMerge (g : ClassGrid) : MergeState :=
  let order := scanOrder g.height g.length g.width
  runPass (specialStep g) order (runPass (mergeStep g) order ⟨fun _ => false, []⟩)

/-- The analysis loop of `_convert_optimized` (lines 1180-1214) for a modern
grid: the `color_grid` entry (`-1` = skip) and `special_blocks` flag of one
voxel, derived from its block name. -/
def classifyVoxel (blockNames : List String) (length width : Nat) (p : Pos) : Int × Bool :=
  match blockNames[gridIndex length width p]? with
  | none => (-1, false)  -- out-of-grid read; unreachable when the name list fills the grid
  | some blockName =>
    if blockNameToId blockName = 0 then (-1, false)
    else
      let colorId := getColorFromBlockName blockName
      if colorId = -1 then (-1, false)
      else if isSkipBlock blockName then (-1, false)
      else (colorId, (getSpecialPartInfo blockName).isSome)

/-- The special-pass emission data of one voxel: the block name is re-read
(`if not block_name: continue` also rejects the empty string) and the shape
re-derived (`if not special_info: continue`). -/
def specEmitVoxel (blockNames : List String) (length width : Nat) (p : Pos) :
    Option SpecialInfo :=
  match blockNames[gridIndex length width p]? with
  | none => none
  | some blockName =>
    if blockName = "" then none
    else getSpecialPartInfo blockName

/-- The classified grid handed to the merge loops by `_convert_optimized` for
a modern grid of the given dimensions. -/
def pipeGrid (blockNames : List String) (width height length : Nat) : ClassGrid :=
  { width := width, height := height, length := length
    color := fun p => (classifyVoxel blockNames length width p).1
    special := fun p => (classifyVoxel blockNames length width p).2
    specEmit := fun p => specEmitVoxel blockNames length width p }

/-- The regions produced by `_convert_optimized` at scale 1 on a modern grid. -/
def optimizedRegions (blockNames : List String) (width height length : Nat) : List Region :=
  (runMerge (pipeGrid blockNames width height length)).regions

/-- The placement line emitted for a region at scale 1: solid regions
(lines 1315-1324) sit at the centre of their extent with the identity
rotation; special regions (lines 1354-1367) use the shape's part, rotation
and vertical offset. -/
def regionToLine (width length : Nat) (r : Region) : LdrLine :=
  match r.info with
  | none =>
    let centerX : ℚ := (r.x : ℚ) + ((r.xLen : ℚ) - 1) / 2
    let centerZ : ℚ := (r.z : ℚ) + ((r.zLen : ℚ) - 1) / 2
    ⟨r.color, (centerX - (width : ℚ) / 2) * 20, -(r.y : ℚ) * 24,
      (centerZ - (length : ℚ) / 2) * 20, "1 0 0 0 1 0 0 0 1", r.part⟩
  | some info =>
    ⟨r.color, ((r.x : ℚ) - (width : ℚ) / 2) * 20, -(r.y : ℚ) * 24 + info.yOffset,
      ((r.z : ℚ) - (length : ℚ) / 2) * 20, info.rotation, info.part⟩

/-- The placement lines of `_convert_optimized` at scale 1 on a modern grid,
in emission order. -/
def optimizedLines (blockNames : List String) (width height length : Nat) : List LdrLine :=
  (optimizedRegions blockNames width height length).map (regionToLine width length)

/-- The palette actually chosen by `_load_schem_format`, written as an
independent priority chain: `Blocks.Palette`, else root `Palette`, else the
first root key equal to `"palette"` case-insensitively. -/
def paletteOf (r : SchemRoot) : Option Nat :=
  match (match r.blocks with | some bd => bd.1 | none => none) with
  | some p => some p
  | none =>
    match r.rootPalette with
    | some p => some p
    | none => (r.otherKeys.find? (fun kv => pyLower kv.1 == "palette")).map (fun kv => kv.2)

/-- The index data actually chosen by `_load_schem_format`, written as an
independent priority chain: `Blocks.Data`, else root `BlockData`. -/
def dataOf (r : SchemRoot) : Option Nat :=
  match (match r.blocks with | some bd => bd.2 | none => none) with
  | some d => some d
  | none => r.rootBlockData

/-- A rotation string parsed into a 3x3 integer matrix (row-major, as the
LDraw comment in the source describes: `a b c d e f g h i` stands for
`[[a,b,c],[d,e,f],[g,h,i]]`). -/
def toMatrix (rotationStr : String) : Matrix (Fin 3) (Fin 3) ℤ :=
  let vals := (pySplit rotationStr " ").map parseIntTok
  Matrix.of ![![vals.getD 0 0, vals.getD 1 0, vals.getD 2 0],
              ![vals.getD 3 0, vals.getD 4 0, vals.getD 5 0],
              ![vals.getD 6 0, vals.getD 7 0, vals.getD 8 0]]

/-- Membership of a `(y, z, x)` position in a grid of the given extents. -/
abbrev inGrid (height length width : Nat) (p : Pos) : Prop :=
  p.1 < height ∧ p.2.1 < length ∧ p.2.2 < width

/-- C1: at a 1x1x2 modern grid holding an `oak_planks` voxel at x=0 and a
same-colored `oak_stairs` special voxel at x=1, the scale-1 greedy scan
absorbs the special voxel into the merged 1x2 solid region: the X-run
validity check (lines 1281-1284) tests only `used` and color, not
`special_blocks`, and the final special pass, finding the stair's cell
already used, emits nothing for it.  The single emitted region is solid
(`info = none`), covers the special cell `(0,0,1)`, and carries no
`SpecialShape` — against both the claim and the source's own comments
("Track special blocks that shouldn't be merged", "Process special
blocks (stairs, slabs, etc.) individually - don't merge them"). -/
theorem c1_special_absorbed_at_scale1 :
    optimizedRegions ["minecraft:oak_planks", "minecraft:oak_stairs"] 2 1 1 =
      [⟨0, 0, 0, 1, 2, 70, "3004", none⟩] ∧
    (getSpecialPartInfo "minecraft:oak_stairs").isSome = true ∧
    getColorFromBlockName "minecraft:oak_stairs" = getColorFromBlockName "minecraft:oak_planks" ∧
    coversB ⟨0, 0, 0, 1, 2, 70, "3004", none⟩ (0, 0, 1) = true := by
  refine ⟨?_, ?_, ?_, ?_⟩ <;> decide

/-- C4 counterexample: converting the single voxel
`"minecraft:oak_stairs[facing=east,half=top]"` at scale 2 emits two records
whose rotation is the identity matrix, not the east matrix with rows 2-3
negated (which is `"0 0 -1 0 -1 0 -1 0 0"`): `_emit_block_2x` emits every
part with its local `identity` rotation and ignores the facing/half
rotation computed by `_get_special_part_info`. -/
theorem c4_rotation_counterexample :
    (convertStandardLines ["minecraft:oak_stairs[facing=east,half=top]"] 1 1 1 2).map
        (fun ln => ln.rot) = ["1 0 0 0 1 0 0 0 1", "1 0 0 0 1 0 0 0 1"] ∧
    flipRotationY (rotationFor "east") = "0 0 -1 0 -1 0 -1 0 0" ∧
    ("1 0 0 0 1 0 0 0 1" : String) ≠ "0 0 -1 0 -1 0 -1 0 0" := by
  refine ⟨?_, ?_, ?_⟩ <;> decide

unseal Rat.add Rat.mul Rat.inv Rat.sub in
/-- C4 amended: converting the single voxel
`"minecraft:oak_stairs[facing=east,half=top]"` at scale 2 emits exactly two
vertically stacked records — for `half=top` the full-height 2x2 brick
(`3003`) at the top of the cell and the 2x2 plate (`3022`) 24 LDU below
it (LDraw Y grows downward) — each with the identity rotation: the facing
and half derived rotation is not applied at scale 2. -/
theorem c4_stair_scale2_amended :
    convertStandardLines ["minecraft:oak_stairs[facing=east,half=top]"] 1 1 1 2 =
      [⟨70, -20, 0, -20, "1 0 0 0 1 0 0 0 1", "3003"⟩,
       ⟨70, -20, 24, -20, "1 0 0 0 1 0 0 0 1", "3022"⟩] := by
  decide

unseal Rat.add Rat.mul Rat.inv Rat.sub in
/-- C6 counterexample: the placement line for a single stone voxel renders
its position fields with exactly two decimal digits (`"-10.00"`,
`"0.00"`), not three: the source formats every coordinate with `:.2f`. -/
theorem c6_two_decimals_counterexample :
    (convertStandardLines ["minecraft:stone"] 1 1 1 1).map renderLine =
      ["1 71 -10.00 0.00 -10.00 1 0 0 0 1 0 0 0 1 3005.dat"] ∧
    ((pySplit "-10.00" ".").getD 1 "").length = 2 ∧ (2 : Nat) ≠ 3 := by
  refine ⟨?_, ?_, ?_⟩ <;> decide

unseal Rat.add Rat.mul Rat.inv Rat.sub in
/-- C8: a 1x1x4 row of identical `"minecraft:oak_planks"` voxels converted
with optimize on at scale 1 yields exactly one record: the catalog 1x4
part `3010` at the centre of the run (`center_x = 0 + (4-1)/2`, centred
and scaled to `-10`), with the planks color 70 and identity rotation. -/
theorem c8_planks_row_merged :
    optimizedLines ["minecraft:oak_planks", "minecraft:oak_planks",
        "minecraft:oak_planks", "minecraft:oak_planks"] 4 1 1 =
      [⟨70, -10, 0, -10, "1 0 0 0 1 0 0 0 1", "3010"⟩] ∧
    dictGet? brickSizes (1, 4) = some "3010" ∧
    (-10 : ℚ) = (((0 : ℚ) + ((4 : ℚ) - 1) / 2) - (4 : ℚ) / 2) * 20 := by
  refine ⟨?_, ?_, ?_⟩
  · decide
  · decide
  · norm_num

/-- C3 counterexample: the one-byte stream `[-127]` (the signed reading of
`0x81`, whose continuation bit is set, so the stream ends truncated
mid-value and contains zero fully-formed values) decodes to `[1]`, not
`[]`: the outer loop of `_decode_varint_array` appends the partially
accumulated value after the inner loop runs out of input. -/
theorem c3_truncated_value_kept :
    decodeVarintArray [(-127 : Int)] 5 = [1] ∧ ([1] : List Nat) ≠ [] ∧
    toUByte (-127) &&& 128 ≠ 0 := by
  refine ⟨?_, ?_, ?_⟩ <;> decide

/-- C5 counterexample: a root whose `Blocks` compound carries only a
`Palette` (handle 1) while the root level carries both `Palette`
(handle 2) and `BlockData` (handle 3).  Rule (1) of the claim does not
apply (no `Data` sub-entry inside `Blocks`), so the claim resolves via
rule (2) to the root pair `(2, 3)`; the code instead keeps the `Blocks`
palette and pairs it with the root data, producing `(1, 3)`. -/
theorem c5_priority_counterexample :
    findPaletteData ⟨some (some 1, none), some 2, some 3, []⟩ = .ok (1, 3) ∧
    findPaletteDataClaim ⟨some (some 1, none), some 2, some 3, []⟩ = .ok (2, 3) ∧
    (Except.ok ((1 : Nat), (3 : Nat)) : Except String (Nat × Nat)) ≠ .ok (2, 3) := by
  refine ⟨?_, ?_, ?_⟩ <;> decide

/-- C5 amended: `_load_schem_format` resolves the palette and the index data
independently, each through its own priority chain — the palette from
`Blocks.Palette`, else root `Palette`, else the first root key equal to
`"palette"` case-insensitively; the data from `Blocks.Data`, else root
`BlockData` — and fails (palette checked first) exactly when the
corresponding chain comes up empty. -/
theorem c5_independent_resolution (r : SchemRoot) :
    findPaletteData r =
      match paletteOf r, dataOf r with
      | some p, some d => .ok (p, d)
      | none, _ => .error "Could not find Palette in .schem file"
      | some _, none => .error "Could not find BlockData in .schem file" := by
  rcases r with ⟨blocks, rp, rd, okeys⟩
  rcases blocks with _ | ⟨bp, bd⟩
  · rcases rp with _ | p2 <;> rcases rd with _ | d2 <;>
      cases hfind : okeys.find? (fun kv => pyLower kv.1 == "palette") <;>
      simp [findPaletteData, paletteOf, dataOf, hfind]
  · rcases bp with _ | p <;> rcases bd with _ | d <;>
      rcases rp with _ | p2 <;> rcases rd with _ | d2 <;>
      cases hfind : okeys.find? (fun kv => pyLower kv.1 == "palette") <;>
      simp [findPaletteData, paletteOf, dataOf, hfind]

/-- C9: for every legacy block id in the fixed dye-override set and every
data value present in the 16-entry dye table, `get_brick_info` returns the
dye-table color (overriding the id-based color) together with the default
1x1 brick. -/
theorem c9_dye_override (blockId dataValue : Nat) (c : Int)
    (hid : blockId ∈ colorDataBlocks)
    (hd : dictGet? woolColorMappings dataValue = some c) :
    getBrickInfo blockId dataValue = (defaultBrick, c) := by
  simp [getBrickInfo, hid, hd]

/-- C9 witness: wool (id 35) with data value 4 is in the override set, the
dye table maps 4 to the yellow code 14, and `get_brick_info` returns
`("3005", 14)` — overriding wool's id-based default color 15. -/
theorem c9_dye_override_witness :
    (35 ∈ colorDataBlocks ∧ dictGet? woolColorMappings 4 = some 14) ∧
    getBrickInfo 35 4 = (defaultBrick, 14) ∧
    dictGet blockColors 35 7 = 15 ∧ (14 : Int) ≠ 15 :=
  ⟨⟨by decide, by decide⟩, c9_dye_override 35 4 14 (by decide) (by decide),
    by decide, by decide⟩

/-- C7: the four cardinal facing rotation matrices are pairwise distinct,
each is orthogonal with determinant 1, north is the identity matrix, and
applying the half=top flip (`_flip_rotation_y`, negating the second and
third rows) twice to any of them returns the original matrix. -/
theorem c7_rotation_matrices :
    toMatrix (rotationFor "north") = 1 ∧
    (toMatrix (rotationFor "north") ≠ toMatrix (rotationFor "east") ∧
     toMatrix (rotationFor "north") ≠ toMatrix (rotationFor "south") ∧
     toMatrix (rotationFor "north") ≠ toMatrix (rotationFor "west") ∧
     toMatrix (rotationFor "east") ≠ toMatrix (rotationFor "south") ∧
     toMatrix (rotationFor "east") ≠ toMatrix (rotationFor "west") ∧
     toMatrix (rotationFor "south") ≠ toMatrix (rotationFor "west")) ∧
    (toMatrix (rotationFor "north") * (toMatrix (rotationFor "north")).transpose = 1 ∧
     toMatrix (rotationFor "east") * (toMatrix (rotationFor "east")).transpose = 1 ∧
     toMatrix (rotationFor "south") * (toMatrix (rotationFor "south")).transpose = 1 ∧
     toMatrix (rotationFor "west") * (toMatrix (rotationFor "west")).transpose = 1) ∧
    ((toMatrix (rotationFor "north")).det = 1 ∧
     (toMatrix (rotationFor "east")).det = 1 ∧
     (toMatrix (rotationFor "south")).det = 1 ∧
     (toMatrix (rotationFor "west")).det = 1) ∧
    (flipRotationY (flipRotationY (rotationFor "north")) = rotationFor "north" ∧
     flipRotationY (flipRotationY (rotationFor "east")) = rotationFor "east" ∧
     flipRotationY (flipRotationY (rotationFor "south")) = rotationFor "south" ∧
     flipRotationY (flipRotationY (rotationFor "west")) = rotationFor "west") := by
  refine ⟨by decide, ⟨by decide, by decide, by decide, by decide, by decide, by decide⟩,
    ⟨by decide, by decide, by decide, by decide⟩,
    ⟨?_, ?_, ?_, ?_⟩,
    ⟨by decide, by decide, by decide, by decide⟩⟩ <;>
  · rw [Matrix.det_fin_three]; decide

/-- Supporting fact: in the `name_to_id` table only the key `"air"` maps to
the air id 0. -/
theorem nameToId_zero_key : ∀ kv ∈ nameToId, kv.2 = 0 → kv.1 = "air" := by decide

/-- Supporting fact: in the name-to-color table only the key `"air"` maps to
the skip sentinel `-1`. -/
theorem blockToColor_neg_key : ∀ kv ∈ blockToColor, kv.2 = -1 → kv.1 = "air" := by decide

/-- A base name other than `"air"` never yields the air id 0 (unknown names
default to id 1). -/
theorem blockNameToId_ne_zero (nm : String) (h : stripBlockName nm ≠ "air") :
    blockNameToId nm ≠ 0 := by
  unfold blockNameToId dictGet
  cases hfind : nameToId.find? (fun kv => kv.1 == stripBlockName nm) with
  | none => simp
  | some kv =>
    have hmem : kv ∈ nameToId := List.mem_of_find?_eq_some hfind
    have hpred := List.find?_some hfind
    have hkey : kv.1 = stripBlockName nm := by simpa using hpred
    simp only
    intro h0
    exact h (hkey ▸ nameToId_zero_key kv hmem h0)

/-- A base name other than `"air"` never resolves to the skip color `-1`
(unknown names default to light gray 7). -/
theorem colorFromName_ne_neg (nm : String) (h : stripBlockName nm ≠ "air") :
    getColorFromBlockName nm ≠ -1 := by
  unfold getColorFromBlockName dictGet
  cases hfind : blockToColor.find? (fun kv => kv.1 == stripBlockName nm) with
  | none => simp
  | some kv =>
    have hmem : kv ∈ blockToColor := List.mem_of_find?_eq_some hfind
    have hpred := List.find?_some hfind
    have hkey : kv.1 = stripBlockName nm := by simpa using hpred
    simp only
    intro h0
    exact h (hkey ▸ blockToColor_neg_key kv hmem h0)

/-- C10: in the named (.schem) path, only the exact base name `"air"` is
treated as empty space.  Any single voxel whose base name is neither
`"air"` nor in the skip set — including unrecognized air-like names such
as `"cave_air"` — produces exactly one placement record (in particular at
least one), carrying `_get_color_from_block_name`'s result; when the base
name is absent from the name-to-color table that color is the default
gray 7. -/
theorem c10_nonair_emits (nm : String)
    (h1 : stripBlockName nm ≠ "air")
    (h2 : isSkipBlock nm = false) :
    (convertStandardLines [nm] 1 1 1 1).map (fun ln => ln.color) =
      [getColorFromBlockName nm] ∧
    (dictGet? blockToColor (stripBlockName nm) = none → getColorFromBlockName nm = 7) := by
  constructor
  · have hid := blockNameToId_ne_zero nm h1
    have hcol := colorFromName_ne_neg nm h1
    have hscan : scanOrder 1 1 1 = [(0, 0, 0)] := by decide
    simp only [convertStandardLines, hscan, List.foldl, List.nil_append]
    unfold stdEmitVoxel
    simp only [gridIndex]
    norm_num
    rw [if_neg hid, if_neg hcol]
    simp only [h2, Bool.false_eq_true, if_false]
    cases hsi : getSpecialPartInfo nm <;> simp [hsi]
  · intro hnone
    unfold getColorFromBlockName dictGet
    unfold dictGet? at hnone
    cases hfind : blockToColor.find? (fun kv => kv.1 == stripBlockName nm) with
    | none => simp
    | some kv => rw [hfind] at hnone; simp at hnone

/-- C10 witness: `"minecraft:cave_air"` is neither `"air"` nor in the skip
set, so it emits one record, and since it is absent from the color table
its color is the default gray 7. -/
theorem c10_nonair_emits_witness :
    (stripBlockName "minecraft:cave_air" ≠ "air" ∧
      isSkipBlock "minecraft:cave_air" = false) ∧
    ((convertStandardLines ["minecraft:cave_air"] 1 1 1 1).map (fun ln => ln.color) =
        [getColorFromBlockName "minecraft:cave_air"] ∧
      (dictGet? blockToColor (stripBlockName "minecraft:cave_air") = none →
        getColorFromBlockName "minecraft:cave_air" = 7)) :=
  ⟨⟨by decide, by decide⟩, c10_nonair_emits "minecraft:cave_air" (by decide) (by decide)⟩

/-- Supporting fact: sign-correction is the identity on byte values stored
as nonnegative integers. -/
theorem toUByte_ofNat (v : Nat) : toUByte (v : Int) = v := by
  simp [toUByte, Int.toNat_ofNat]

/-- Supporting fact: `byte & 0x7F` keeps the low seven bits. -/
theorem and_127_eq_mod (m : Nat) : m &&& 127 = m % 128 := by
  have h := Nat.and_pow_two_sub_one_eq_mod m 7
  norm_num at h
  exact h

/-- Supporting fact: the continuation bit of a byte below 128 is clear. -/
theorem and_128_of_lt (m : Nat) (h : m < 128) : m &&& 128 = 0 := by
  apply Nat.eq_of_testBit_eq
  intro i
  simp only [Nat.testBit_and, Nat.zero_testBit]
  have h128 : (128 : Nat) = 2 ^ 7 := by norm_num
  rw [h128, Nat.testBit_two_pow]
  by_cases hi : (7 : Nat) = i
  · subst hi
    have : m.testBit 7 = false := Nat.testBit_lt_two_pow (by norm_num; omega)
    simp [this]
  · simp [hi]

/-- Supporting fact: the continuation bit of a byte in 128..255 is set. -/
theorem and_128_ne_zero (m : Nat) (h1 : 128 ≤ m) (h2 : m < 256) : m &&& 128 ≠ 0 := by
  intro h0
  have hbit : (m &&& 128).testBit 7 = false := by rw [h0]; simp
  rw [Nat.testBit_and] at hbit
  have hm : m.testBit 7 = true := by
    simp only [Nat.testBit_to_div_mod, decide_eq_true_eq]
    norm_num
    omega
  have h128 : (128 : Nat).testBit 7 = true := by decide
  rw [hm, h128] at hbit
  simp at hbit

/-- Supporting fact: or-ing a fresh 7-bit group into the accumulator is
addition, as long as the accumulator fits below the shift. -/
theorem lor_shift_add (acc m s : Nat) (h : acc < 2 ^ s) :
    acc ||| (m <<< s) = acc + m * 2 ^ s :=
  calc acc ||| (m <<< s) = (2 ^ s * m) ||| acc := by
        rw [Nat.shiftLeft_eq, Nat.or_comm, Nat.mul_comm]
    _ = 2 ^ s * m + acc := (Nat.mul_add_lt_is_or h m).symm
    _ = acc + m * 2 ^ s := by ring

/-- The inner decoding loop inverts the (spec-modelled) encoder: reading one
encoded value prepends it, scaled into the current shift position, to the
accumulator, and leaves exactly the trailing bytes. -/
theorem readVarint_encodeFuel (fuel : Nat) : ∀ (v : Nat) (rest : List Int) (acc s : Nat),
    v < fuel → acc < 2 ^ s →
    readVarint (encodeVarintFuel fuel v ++ rest) acc s = (acc + v * 2 ^ s, rest) := by
  induction fuel with
  | zero => intro v rest acc s hv; omega
  | succ f ih =>
    intro v rest acc s hv hacc
    simp only [encodeVarintFuel]
    by_cases h128 : v < 128
    · rw [if_pos h128]
      simp only [List.cons_append, List.nil_append, readVarint, toUByte_ofNat]
      rw [and_127_eq_mod, Nat.mod_eq_of_lt h128, and_128_of_lt v h128]
      simp [lor_shift_add acc v s hacc]
    · rw [if_neg h128]
      simp only [List.cons_append, readVarint, toUByte_ofNat]
      rw [and_127_eq_mod]
      have hmod : (v % 128 + 128) % 128 = v % 128 := by omega
      rw [hmod]
      have hne : (v % 128 + 128) &&& 128 ≠ 0 :=
        and_128_ne_zero (v % 128 + 128) (by omega) (by omega)
      have hbeq : ((v % 128 + 128) &&& 128 == 0) = false := by
        simpa using hne
      rw [hbeq]
      simp only [Bool.false_eq_true, if_false]
      have hlt : v / 128 < f := by
        have h1 : v / 128 < v := Nat.div_lt_self (by omega) (by omega)
        omega
      have hacc2 : acc ||| ((v % 128) <<< s) < 2 ^ (s + 7) := by
        rw [lor_shift_add acc (v % 128) s hacc]
        have hr : v % 128 ≤ 127 := by omega
        have hp : (2 : Nat) ^ (s + 7) = 2 ^ s * 128 := by rw [pow_add]; norm_num
        have hmul : v % 128 * 2 ^ s ≤ 127 * 2 ^ s := mul_le_mul_right' hr _
        calc acc + v % 128 * 2 ^ s < 2 ^ s + 127 * 2 ^ s := by linarith
          _ = 2 ^ s * 128 := by ring
          _ = 2 ^ (s + 7) := hp.symm
      simp only [List.append_eq]
      rw [ih (v / 128) rest (acc ||| ((v % 128) <<< s)) (s + 7) hlt hacc2]
      rw [lor_shift_add acc (v % 128) s hacc]
      have hv128 : 128 * (v / 128) + v % 128 = v := by omega
      have harith : acc + v % 128 * 2 ^ s + v / 128 * 2 ^ (s + 7) = acc + v * 2 ^ s := by
        have hp : (2 : Nat) ^ (s + 7) = 2 ^ s * 128 := by rw [pow_add]; norm_num
        rw [hp]
        nlinarith [hv128]
      rw [harith]

/-- The inner decoding loop inverts the encoder (instance at shift 0). -/
theorem readVarint_encode (v : Nat) (rest : List Int) :
    readVarint (encodeVarint v ++ rest) 0 0 = (v, rest) := by
  have h := readVarint_encodeFuel (v + 1) v rest 0 0 (Nat.lt_succ_self v) (by norm_num)
  simpa [encodeVarint] using h

/-- The inner loop never grows the input. -/
theorem readVarint_length_le (l : List Int) : ∀ (v s : Nat),
    (readVarint l v s).2.length ≤ l.length := by
  induction l with
  | nil => intro v s; simp [readVarint]
  | cons c cs ih =>
    intro v s
    simp only [readVarint]
    split
    · simp
    · exact le_trans (ih _ _) (Nat.le_succ _)

/-- The inner loop consumes at least one byte of a nonempty input. -/
theorem readVarint_cons_length (b : List Int) (c : Int) (v s : Nat) :
    (readVarint (c :: b) v s).2.length ≤ b.length := by
  simp only [readVarint]
  split
  · simp
  · exact readVarint_length_le b _ _

/-- Any fuel bound of at least the input length yields the same decoding:
the fuel in `decodeVarintFuel` is an artifact of the embedding, not of the
algorithm. -/
theorem decodeVarintFuel_fuel_free (fuel1 : Nat) : ∀ (fuel2 : Nat) (data : List Int) (n : Nat),
    data.length ≤ fuel1 → data.length ≤ fuel2 →
    decodeVarintFuel fuel1 data n = decodeVarintFuel fuel2 data n := by
  induction fuel1 with
  | zero =>
    intro fuel2 data n h1 h2
    have : data = [] := List.eq_nil_of_length_eq_zero (Nat.le_zero.mp h1)
    subst this
    simp [decodeVarintFuel]
  | succ f1 ih =>
    intro fuel2 data n h1 h2
    cases data with
    | nil => simp [decodeVarintFuel]
    | cons c cs =>
      cases n with
      | zero => simp [decodeVarintFuel]
      | succ m =>
        cases fuel2 with
        | zero => simp at h2
        | succ f2 =>
          simp only [decodeVarintFuel]
          congr 1
          apply ih
          · exact le_trans (readVarint_cons_length cs c 0 0) (by simpa using h1)
          · exact le_trans (readVarint_cons_length cs c 0 0) (by simpa using h2)

/-- An encoded value occupies at least one byte. -/
theorem encodeVarintFuel_ne_nil (fuel v : Nat) : encodeVarintFuel fuel v ≠ [] := by
  cases fuel with
  | zero => simp [encodeVarintFuel]
  | succ f =>
    simp only [encodeVarintFuel]
    split <;> simp

/-- Decoding one more value than remains in the budget peels one encoded
value off the stream. -/
theorem decode_cons (v : Nat) (rest : List Int) (m : Nat) :
    decodeVarintArray (encodeVarint v ++ rest) (m + 1) =
      v :: decodeVarintArray rest m := by
  have hread := readVarint_encode v rest
  cases henc : encodeVarint v with
  | nil => exact absurd henc (encodeVarintFuel_ne_nil (v + 1) v)
  | cons c tl =>
    rw [henc] at hread
    unfold decodeVarintArray
    simp only [List.cons_append] at hread
    simp only [List.cons_append, List.length_cons, decodeVarintFuel, List.append_eq]
    rw [hread]
    simp only
    congr 1
    apply decodeVarintFuel_fuel_free
    · have : rest.length ≤ (tl ++ rest).length := by simp
      omega
    · exact le_refl _

/-- On a stream consisting solely of continuation bytes the inner loop
consumes everything. -/
theorem readVarint_allcont (tail : List Int)
    (h : ∀ b ∈ tail, toUByte b &&& 128 ≠ 0) : ∀ (acc s : Nat),
    (readVarint tail acc s).2 = [] := by
  induction tail with
  | nil => intro acc s; simp [readVarint]
  | cons b l ih =>
    intro acc s
    simp only [readVarint]
    have hb : toUByte b &&& 128 ≠ 0 := h b (List.mem_cons_self b l)
    have hbeq : (toUByte b &&& 128 == 0) = false := by simpa using hb
    rw [hbeq]
    simp only [Bool.false_eq_true, if_false]
    exact ih (fun x hx => h x (List.mem_cons_of_mem b hx)) _ _

/-- A nonempty all-continuation stream (truncated mid-value) decodes, with a
positive budget, to exactly the one partially accumulated value. -/
theorem decode_allcont (tail : List Int)
    (h : ∀ b ∈ tail, toUByte b &&& 128 ≠ 0) (htail : tail ≠ []) (m : Nat) :
    decodeVarintArray tail (m + 1) = [(readVarint tail 0 0).1] := by
  cases tail with
  | nil => exact absurd rfl htail
  | cons b l =>
    unfold decodeVarintArray
    simp only [List.length_cons, decodeVarintFuel]
    rw [readVarint_allcont (b :: l) h 0 0]
    simp [decodeVarintFuel]

/-- C3 amended: for every stream formed of whole varint encodings followed by
a (possibly empty) run of continuation bytes truncated mid-value, decoding
with budget `n` yields the first `n` fully-formed values; it stops at the
budget or at exhaustion and, being a total function, never raises.  But a
trailing truncated value is NOT dropped: whenever the budget is not yet
exhausted and the truncated tail is nonempty, the partially accumulated
value (the 7-bit groups read before exhaustion) is appended as a final
decoded value. -/
theorem c3_decode_characterization (vs : List Nat) (tail : List Int) (n : Nat)
    (htail : ∀ b ∈ tail, toUByte b &&& 128 ≠ 0) :
    decodeVarintArray (encodeVarintList vs ++ tail) n =
      vs.take n ++
        (if vs.length < n ∧ tail ≠ [] then [(readVarint tail 0 0).1] else []) := by
  induction vs generalizing n with
  | nil =>
    simp only [encodeVarintList, List.nil_append, List.take_nil, List.length_nil]
    cases n with
    | zero =>
      simp only [Nat.lt_irrefl, false_and, if_false, List.nil_append]
      cases tail <;> simp [decodeVarintArray, decodeVarintFuel]
    | succ m =>
      by_cases ht : tail = []
      · subst ht
        simp [decodeVarintArray, decodeVarintFuel]
      · rw [decode_allcont tail htail ht m]
        simp [ht, Nat.succ_pos]
  | cons v vs ih =>
    cases n with
    | zero =>
      simp only [List.take_zero, Nat.not_lt_zero, false_and, if_false, List.nil_append]
      cases h : encodeVarintList (v :: vs) ++ tail <;>
        simp [decodeVarintArray, decodeVarintFuel]
    | succ m =>
      have hstep : encodeVarintList (v :: vs) ++ tail =
          encodeVarint v ++ (encodeVarintList vs ++ tail) := by
        simp [encodeVarintList, List.append_assoc]
      rw [hstep, decode_cons, ih m]
      simp only [List.take_succ_cons, List.length_cons, List.cons_append]
      have : vs.length + 1 < m + 1 ↔ vs.length < m := by omega
      rw [if_congr (and_congr_left fun _ => this) rfl rfl]

/-- C3 witness: two encoded values `[1, 300]` followed by the lone
continuation byte `-127` decode, with budget 5, to `[1, 300, 1]` — the
truncated trailing value is emitted, not dropped. -/
theorem c3_decode_characterization_witness :
    (∀ b ∈ [(-127 : Int)], toUByte b &&& 128 ≠ 0) ∧
    decodeVarintArray (encodeVarintList [1, 300] ++ [(-127 : Int)]) 5 =
      [1, 300].take 5 ++
        (if [1, 300].length < 5 ∧ [(-127 : Int)] ≠ [] then
          [(readVarint [(-127 : Int)] 0 0).1] else []) ∧
    decodeVarintArray (encodeVarintList [1, 300] ++ [(-127 : Int)]) 5 = [1, 300, 1] :=
  ⟨by decide, c3_decode_characterization [1, 300] [(-127)] 5 (by decide), by decide⟩

/-- A position is scanned exactly when it lies inside the grid. -/
theorem mem_scanOrder (h l w : Nat) (p : Pos) :
    p ∈ scanOrder h l w ↔ p.1 < h ∧ p.2.1 < l ∧ p.2.2 < w := by
  rcases p with ⟨y, z, x⟩
  simp only [scanOrder, List.mem_flatMap, List.mem_map, List.mem_range, Prod.mk.injEq]
  constructor
  · rintro ⟨a, ha, b, hb, c, hc, h1, h2, h3⟩
    subst h1; subst h2; subst h3
    exact ⟨ha, hb, hc⟩
  · rintro ⟨hy, hz, hx⟩
    exact ⟨y, hy, z, hz, x, hx, rfl, rfl, rfl⟩

/-- Unfolding of region coverage. -/
theorem coversB_iff (r : Region) (p : Pos) :
    coversB r p = true ↔
      p.1 = r.y ∧ r.z ≤ p.2.1 ∧ p.2.1 < r.z + r.zLen ∧
        r.x ≤ p.2.2 ∧ p.2.2 < r.x + r.xLen := by
  simp [coversB, and_assoc]

/-- What a successful run-validity check guarantees cell by cell. -/
theorem runOk_spec (g : ClassGrid) (used : Pos → Bool) (cid : Int) (y z x n : Nat)
    (h : runOk g used cid y z x n = true) :
    ∀ dx, dx < n → used (y, z, x + dx) = false ∧ g.color (y, z, x + dx) = cid := by
  intro dx hdx
  simp only [runOk, List.all_eq_true, List.mem_range] at h
  have := h dx hdx
  simp only [Bool.and_eq_true, Bool.not_eq_true', beq_iff_eq] at this
  exact this

/-- Every catalog X-length is positive. -/
theorem xLengths_ge_one : ∀ n ∈ xLengths, 1 ≤ n := by decide

/-- The X-run search returns a positive length whose run fits the grid and
passes the validity check (length 1 always qualifies at an unvisited
matching cell, so the search cannot fail). -/
theorem bestXLenOf_spec (g : ClassGrid) (used : Pos → Bool) (cid : Int) (p : Pos)
    (hx : p.2.2 < g.width) (hu : used p = false) (hc : g.color p = cid) :
    p.2.2 + bestXLenOf g used cid p ≤ g.width ∧
    runOk g used cid p.1 p.2.1 p.2.2 (bestXLenOf g used cid p) = true ∧
    1 ≤ bestXLenOf g used cid p := by
  unfold bestXLenOf
  cases hf : xLengths.find? (fun n =>
      decide (p.2.2 + n ≤ g.width) && runOk g used cid p.1 p.2.1 p.2.2 n) with
  | none =>
    exfalso
    have h1 := List.find?_eq_none.mp hf 1 (by decide)
    apply h1
    simp only [Bool.and_eq_true, decide_eq_true_eq]
    refine ⟨by omega, ?_⟩
    simp only [runOk, List.all_eq_true, List.mem_range, Nat.lt_one_iff]
    intro dx hdx
    subst hdx
    rcases p with ⟨y, z, x⟩
    simp only [Nat.add_zero]
    simp only [Bool.and_eq_true, Bool.not_eq_true', beq_iff_eq]
    exact ⟨hu, hc⟩
  | some n =>
    have hmem := List.mem_of_find?_eq_some hf
    have hpred := List.find?_some hf
    simp only [Bool.and_eq_true, decide_eq_true_eq] at hpred
    simpa using ⟨hpred.1, hpred.2, xLengths_ge_one n hmem⟩

/-- The Z-widening either stays at 1 or widens to 2 with a valid second row. -/
theorem bestZLenOf_cases (g : ClassGrid) (used : Pos → Bool) (cid : Int) (p : Pos)
    (bestXLen : Nat) :
    bestZLenOf g used cid p bestXLen = 1 ∨
    (bestZLenOf g used cid p bestXLen = 2 ∧ p.2.1 + 1 < g.length ∧
      runOk g used cid p.1 (p.2.1 + 1) p.2.2 bestXLen = true) := by
  unfold bestZLenOf
  split
  · rename_i hcond
    simp only [Bool.and_eq_true, decide_eq_true_eq] at hcond
    exact Or.inr ⟨rfl, hcond.1.1.1, hcond.1.2⟩
  · exact Or.inl rfl

/-- The emitted solid region covers its seed cell, and every cell it covers
was unvisited, has the seed's color and lies inside the grid (this also
holds through the uncataloged-size fallback). -/
theorem mergeRegionOf_box (g : ClassGrid) (used : Pos → Bool) (py pz px : Nat)
    (hy : py < g.height) (hz : pz < g.length) (hx : px < g.width)
    (hu : used (py, pz, px) = false) :
    coversB (mergeRegionOf g used (py, pz, px)) (py, pz, px) = true ∧
    (∀ q, coversB (mergeRegionOf g used (py, pz, px)) q = true →
      used q = false ∧ g.color q = g.color (py, pz, px) ∧
        inGrid g.height g.length g.width q) := by
  have hbx := bestXLenOf_spec g used (g.color (py, pz, px)) (py, pz, px) hx hu rfl
  obtain ⟨hxle, hrun, hx1⟩ := hbx
  have hbz := bestZLenOf_cases g used (g.color (py, pz, px)) (py, pz, px)
    (bestXLenOf g used (g.color (py, pz, px)) (py, pz, px))
  unfold mergeRegionOf
  cases hfound : dictGet? brickSizes
      (bestZLenOf g used (g.color (py, pz, px))
          (py, pz, px) (bestXLenOf g used (g.color (py, pz, px)) (py, pz, px)),
        bestXLenOf g used (g.color (py, pz, px)) (py, pz, px)) with
  | none =>
    dsimp only
    refine ⟨by rw [coversB_iff]; dsimp only; exact ⟨rfl, le_refl _, by omega, le_refl _, by omega⟩, ?_⟩
    intro q hq
    rw [coversB_iff] at hq
    rcases q with ⟨qy, qz, qx⟩
    dsimp only at hq
    obtain ⟨h1, h2, h3, h4, h5⟩ := hq
    have hqz : qz = pz := by omega
    have hqx : qx = px := by omega
    subst h1; subst hqz; subst hqx
    exact ⟨hu, rfl, hy, hz, hx⟩
  | some b =>
    dsimp only
    constructor
    · rw [coversB_iff]
      rcases hbz with h1 | ⟨h2, _, _⟩
      · dsimp only; rw [h1]; exact ⟨rfl, le_refl _, by omega, le_refl _, by omega⟩
      · dsimp only; rw [h2]; exact ⟨rfl, le_refl _, by omega, le_refl _, by omega⟩
    · intro q hq
      rw [coversB_iff] at hq
      rcases q with ⟨qy, qz, qx⟩
      obtain ⟨h1, h2, h3, h4, h5⟩ := hq
      have h1' : qy = py := h1
      have h2' : pz ≤ qz := h2
      have h3' : qz < pz + bestZLenOf g used (g.color (py, pz, px)) (py, pz, px)
          (bestXLenOf g used (g.color (py, pz, px)) (py, pz, px)) := h3
      have h4' : px ≤ qx := h4
      have h5' : qx < px + bestXLenOf g used (g.color (py, pz, px)) (py, pz, px) := h5
      have hxle' : px + bestXLenOf g used (g.color (py, pz, px)) (py, pz, px) ≤
          g.width := hxle
      rw [h1']
      have hdxlt : qx - px < bestXLenOf g used (g.color (py, pz, px)) (py, pz, px) := by
        omega
      have hxeq : px + (qx - px) = qx := by omega
      have hxin : qx < g.width := by omega
      rcases hbz with hz1 | ⟨hz2, hzlen, hzrun⟩
      · have hqz : qz = pz := by rw [hz1] at h3'; omega
        rw [hqz]
        have hcell := runOk_spec g used (g.color (py, pz, px)) py pz px _ hrun
          (qx - px) hdxlt
        rw [hxeq] at hcell
        exact ⟨hcell.1, hcell.2, hy, hz, hxin⟩
      · rw [hz2] at h3'
        have hzlen' : pz + 1 < g.length := hzlen
        by_cases hqz : qz = pz
        · rw [hqz]
          have hcell := runOk_spec g used (g.color (py, pz, px)) py pz px _ hrun
            (qx - px) hdxlt
          rw [hxeq] at hcell
          exact ⟨hcell.1, hcell.2, hy, hz, hxin⟩
        · have hqz2 : qz = pz + 1 := by omega
          rw [hqz2]
          have hcell := runOk_spec g used (g.color (py, pz, px)) py (pz + 1) px _ hzrun
            (qx - px) hdxlt
          rw [hxeq] at hcell
          exact ⟨hcell.1, hcell.2, hy, hzlen', hxin⟩
/-- Dichotomy for one merge-scan iteration: either the state is unchanged
(and the cell was visited, skipped or special), or exactly one solid
region is appended whose cells were unvisited, colored and in-grid, and
its cells are marked used. -/
theorem mergeStep_cases (g : ClassGrid) (s : MergeState) (p : Pos)
    (hp : inGrid g.height g.length g.width p) :
    (mergeStep g s p = s ∧
      (s.used p = true ∨ g.color p = -1 ∨ g.special p = true)) ∨
    (∃ region : Region,
      mergeStep g s p =
        ⟨fun q => s.used q || coversB region q, s.regions ++ [region]⟩ ∧
      coversB region p = true ∧
      (∀ q, coversB region q = true →
        s.used q = false ∧ g.color q ≠ -1 ∧ inGrid g.height g.length g.width q)) := by
  by_cases hg : (s.used p || (g.color p == -1) || g.special p) = true
  · left
    constructor
    · unfold mergeStep; rw [if_pos hg]
    · simp only [Bool.or_eq_true, beq_iff_eq] at hg
      tauto
  · right
    have hg' := hg
    simp only [Bool.or_eq_true, not_or, Bool.not_eq_true, beq_eq_false_iff_ne] at hg'
    obtain ⟨⟨hu, hc⟩, hsp⟩ := hg'
    rcases p with ⟨py, pz, px⟩
    obtain ⟨hy, hz, hx⟩ := hp
    have hbox := mergeRegionOf_box g s.used py pz px hy hz hx hu
    refine ⟨mergeRegionOf g s.used (py, pz, px), ?_, hbox.1, ?_⟩
    · unfold mergeStep
      rw [if_neg hg]
    · intro q hq
      have h := hbox.2 q hq
      refine ⟨h.1, ?_, h.2.2⟩
      rw [h.2.1]
      exact hc

/-- Dichotomy for one special-pass iteration: either the state is unchanged
(cell visited, not special, skipped, or emission data missing), or its own
single-cell region is appended and marked. -/
theorem specialStep_cases (g : ClassGrid) (s : MergeState) (p : Pos)
    (hp : inGrid g.height g.length g.width p) :
    (specialStep g s p = s ∧
      (s.used p = true ∨ g.special p = false ∨ g.color p = -1 ∨
        g.specEmit p = none)) ∨
    (∃ region : Region,
      specialStep g s p =
        ⟨fun q => s.used q || coversB region q, s.regions ++ [region]⟩ ∧
      coversB region p = true ∧
      (∀ q, coversB region q = true →
        s.used q = false ∧ g.color q ≠ -1 ∧ inGrid g.height g.length g.width q)) := by
  by_cases hg : (s.used p || !g.special p || (g.color p == -1)) = true
  · left
    constructor
    · unfold specialStep; rw [if_pos hg]
    · simp only [Bool.or_eq_true, Bool.not_eq_true', beq_iff_eq] at hg
      tauto
  · have hg' := hg
    simp only [Bool.or_eq_true, not_or, Bool.not_eq_true, Bool.not_eq_false,
      beq_eq_false_iff_ne] at hg'
    obtain ⟨⟨hu, hsp⟩, hc⟩ := hg'
    cases hemit : g.specEmit p with
    | none =>
      left
      constructor
      · unfold specialStep
        rw [if_neg hg, hemit]
      · tauto
    | some info =>
      right
      refine ⟨⟨p.1, p.2.1, p.2.2, 1, 1, g.color p, info.part, some info⟩, ?_, ?_, ?_⟩
      · unfold specialStep
        rw [if_neg hg, hemit]
      · rw [coversB_iff]
        exact ⟨rfl, le_refl _, Nat.lt_succ_self _, le_refl _, Nat.lt_succ_self _⟩
      · intro q hq
        rw [coversB_iff] at hq
        rcases q with ⟨qy, qz, qx⟩
        obtain ⟨h1, h2, h3, h4, h5⟩ := hq
        have h1' : qy = p.1 := h1
        have h2' : p.2.1 ≤ qz := h2
        have h3' : qz < p.2.1 + 1 := h3
        have h4' : p.2.2 ≤ qx := h4
        have h5' : qx < p.2.2 + 1 := h5
        have hqz : qz = p.2.1 := by omega
        have hqx : qx = p.2.2 := by omega
        rw [h1', hqz, hqx]
        have hpeta : (p.1, p.2.1, p.2.2) = p := rfl
        rw [hpeta]
        exact ⟨hu, hc, hp⟩

/-- Appending a region of fresh, in-grid, non-skipped cells preserves the
central invariant: the per-cell region count equals the `used` indicator,
and regions cover only in-grid non-skipped cells. -/
theorem append_region_inv (g : ClassGrid) (s : MergeState) (region : Region)
    (hbox : ∀ q, coversB region q = true →
      s.used q = false ∧ g.color q ≠ -1 ∧ inGrid g.height g.length g.width q)
    (h1 : ∀ q, s.regions.countP (fun r => coversB r q) = if s.used q then 1 else 0)
    (h2 : ∀ r ∈ s.regions, ∀ q, coversB r q = true →
      inGrid g.height g.length g.width q ∧ g.color q ≠ -1) :
    (∀ q, (s.regions ++ [region]).countP (fun r => coversB r q) =
      if (s.used q || coversB region q) then 1 else 0) ∧
    (∀ r ∈ s.regions ++ [region], ∀ q, coversB r q = true →
      inGrid g.height g.length g.width q ∧ g.color q ≠ -1) := by
  constructor
  · intro q
    rw [List.countP_append, h1 q, List.countP_cons, List.countP_nil]
    cases hcov : coversB region q with
    | true =>
      rw [(hbox q hcov).1]
      simp
    | false => simp
  · intro r hr q hq
    rcases List.mem_append.mp hr with h | h
    · exact h2 r h q hq
    · have hr2 : r = region := by simpa using h
      subst hr2
      have h3 := hbox q hq
      exact ⟨h3.2.2, h3.2.1⟩

/-- A pass preserves any invariant its step preserves. -/
theorem runPass_preserve (step : MergeState → Pos → MergeState) (P : MergeState → Prop) :
    ∀ (L : List Pos), (∀ s p, p ∈ L → P s → P (step s p)) →
    ∀ s, P s → P (runPass step L s) := by
  intro L
  induction L with
  | nil => intro _ s hs; exact hs
  | cons a L ih =>
    intro hstep s hs
    exact ih (fun s' p hp => hstep s' p (List.mem_cons_of_mem a hp))
      (step s a) (hstep s a (List.mem_cons_self a L) hs)

/-- A pass never clears the `used` marker. -/
theorem runPass_mono (step : MergeState → Pos → MergeState)
    (hm : ∀ s p q, s.used q = true → (step s p).used q = true) :
    ∀ (L : List Pos) (s : MergeState) (q : Pos),
      s.used q = true → (runPass step L s).used q = true := by
  intro L
  induction L with
  | nil => intro s q h; exact h
  | cons a L ih => intro s q h; exact ih (step s a) q (hm s a q h)

/-- A pass marks every scanned position that its step always marks. -/
theorem runPass_self (step : MergeState → Pos → MergeState) (cond : Pos → Prop)
    (hm : ∀ s p q, s.used q = true → (step s p).used q = true)
    (hc : ∀ s p, cond p → (step s p).used p = true) :
    ∀ (L : List Pos) (s : MergeState), ∀ p ∈ L, cond p →
      (runPass step L s).used p = true := by
  intro L
  induction L with
  | nil => intro s p hp; exact absurd hp (List.not_mem_nil p)
  | cons a L ih =>
    intro s p hp hcond
    rcases List.mem_cons.mp hp with rfl | hmem
    · exact runPass_mono step hm L (step s p) p (hc s p hcond)
    · exact ih (step s a) p hmem hcond

/-- The merge step never clears `used`. -/
theorem mergeStep_mono (g : ClassGrid) (s : MergeState) (p q : Pos) :
    s.used q = true → (mergeStep g s p).used q = true := by
  unfold mergeStep
  split
  · exact fun h => h
  · intro h
    simp only
    rw [h]
    rfl

/-- The special step never clears `used`. -/
theorem specialStep_mono (g : ClassGrid) (s : MergeState) (p q : Pos) :
    s.used q = true → (specialStep g s p).used q = true := by
  unfold specialStep
  split
  · exact fun h => h
  · cases g.specEmit p with
    | none => exact fun h => h
    | some info =>
      intro h
      simp only
      rw [h]
      rfl

/-- The merge step preserves the central invariant. -/
theorem mergeStep_preserve (g : ClassGrid) (s : MergeState) (p : Pos)
    (hp : inGrid g.height g.length g.width p)
    (h1 : ∀ q, s.regions.countP (fun r => coversB r q) = if s.used q then 1 else 0)
    (h2 : ∀ r ∈ s.regions, ∀ q, coversB r q = true →
      inGrid g.height g.length g.width q ∧ g.color q ≠ -1) :
    (∀ q, (mergeStep g s p).regions.countP (fun r => coversB r q) =
      if (mergeStep g s p).used q then 1 else 0) ∧
    (∀ r ∈ (mergeStep g s p).regions, ∀ q, coversB r q = true →
      inGrid g.height g.length g.width q ∧ g.color q ≠ -1) := by
  rcases mergeStep_cases g s p hp with ⟨heq, _⟩ | ⟨region, heq, _, hbox⟩
  · rw [heq]; exact ⟨h1, h2⟩
  · rw [heq]
    have h := append_region_inv g s region hbox h1 h2
    exact ⟨h.1, h.2⟩

/-- The special step preserves the central invariant. -/
theorem specialStep_preserve (g : ClassGrid) (s : MergeState) (p : Pos)
    (hp : inGrid g.height g.length g.width p)
    (h1 : ∀ q, s.regions.countP (fun r => coversB r q) = if s.used q then 1 else 0)
    (h2 : ∀ r ∈ s.regions, ∀ q, coversB r q = true →
      inGrid g.height g.length g.width q ∧ g.color q ≠ -1) :
    (∀ q, (specialStep g s p).regions.countP (fun r => coversB r q) =
      if (specialStep g s p).used q then 1 else 0) ∧
    (∀ r ∈ (specialStep g s p).regions, ∀ q, coversB r q = true →
      inGrid g.height g.length g.width q ∧ g.color q ≠ -1) := by
  rcases specialStep_cases g s p hp with ⟨heq, _⟩ | ⟨region, heq, _, hbox⟩
  · rw [heq]; exact ⟨h1, h2⟩
  · rw [heq]
    have h := append_region_inv g s region hbox h1 h2
    exact ⟨h.1, h.2⟩

/-- The merge step marks an unskipped, non-special cell it visits. -/
theorem mergeStep_own (g : ClassGrid) (s : MergeState) (p : Pos)
    (hp : inGrid g.height g.length g.width p)
    (hc : g.color p ≠ -1) (hs : g.special p = false) :
    (mergeStep g s p).used p = true := by
  rcases mergeStep_cases g s p hp with ⟨heq, hcase⟩ | ⟨region, heq, hcov, _⟩
  · rw [heq]
    rcases hcase with h | h | h
    · exact h
    · exact absurd h hc
    · rw [hs] at h; exact absurd h (by simp)
  · rw [heq]
    simp only
    rw [hcov]
    exact Bool.or_true _

/-- The special step marks an unvisited special cell with emission data. -/
theorem specialStep_own (g : ClassGrid) (s : MergeState) (p : Pos)
    (hp : inGrid g.height g.length g.width p)
    (hc : g.color p ≠ -1) (hs : g.special p = true)
    (he : (g.specEmit p).isSome = true) :
    (specialStep g s p).used p = true := by
  rcases specialStep_cases g s p hp with ⟨heq, hcase⟩ | ⟨region, heq, hcov, _⟩
  · rw [heq]
    rcases hcase with h | h | h | h
    · exact h
    · rw [hs] at h; exact absurd h (by simp)
    · exact absurd h hc
    · rw [h] at he; exact absurd he (by simp)
  · rw [heq]
    simp only
    rw [hcov]
    exact Bool.or_true _

/-- Partition for the abstract merge: provided every in-grid special colored
cell has emission data, each in-grid position is covered by exactly one
emitted region when non-skipped and by none when skipped. -/
theorem runMerge_partition (g : ClassGrid)
    (hspec : ∀ p, inGrid g.height g.length g.width p → g.special p = true →
      g.color p ≠ -1 → (g.specEmit p).isSome = true)
    (p : Pos) (hp : inGrid g.height g.length g.width p) :
    (runMerge g).regions.countP (fun r => coversB r p) =
      if g.color p ≠ -1 then 1 else 0 := by
  have hmem_order : ∀ q ∈ scanOrder g.height g.length g.width,
      inGrid g.height g.length g.width q :=
    fun q hq => (mem_scanOrder _ _ _ q).mp hq
  have hInv0 : (∀ q, (MergeState.mk (fun _ => false) []).regions.countP
        (fun r => coversB r q) =
        if (MergeState.mk (fun _ => false) []).used q then 1 else 0) ∧
      (∀ r ∈ (MergeState.mk (fun _ => false) []).regions, ∀ q,
        coversB r q = true →
        inGrid g.height g.length g.width q ∧ g.color q ≠ -1) := by
    constructor
    · intro q; simp
    · intro r hr; exact absurd hr (List.not_mem_nil r)
  have hInv1 := runPass_preserve (mergeStep g)
    (fun s => (∀ q, s.regions.countP (fun r => coversB r q) =
        if s.used q then 1 else 0) ∧
      (∀ r ∈ s.regions, ∀ q, coversB r q = true →
        inGrid g.height g.length g.width q ∧ g.color q ≠ -1))
    (scanOrder g.height g.length g.width)
    (fun s q hq hPs => mergeStep_preserve g s q (hmem_order q hq) hPs.1 hPs.2)
    (MergeState.mk (fun _ => false) []) hInv0
  have hInv2 := runPass_preserve (specialStep g)
    (fun s => (∀ q, s.regions.countP (fun r => coversB r q) =
        if s.used q then 1 else 0) ∧
      (∀ r ∈ s.regions, ∀ q, coversB r q = true →
        inGrid g.height g.length g.width q ∧ g.color q ≠ -1))
    (scanOrder g.height g.length g.width)
    (fun s q hq hPs => specialStep_preserve g s q (hmem_order q hq) hPs.1 hPs.2)
    (runPass (mergeStep g) (scanOrder g.height g.length g.width)
      (MergeState.mk (fun _ => false) [])) hInv1
  have hrm : runMerge g = runPass (specialStep g)
      (scanOrder g.height g.length g.width)
      (runPass (mergeStep g) (scanOrder g.height g.length g.width)
        (MergeState.mk (fun _ => false) [])) := rfl
  have hpo : p ∈ scanOrder g.height g.length g.width :=
    (mem_scanOrder _ _ _ p).mpr hp
  by_cases hc : g.color p ≠ -1
  · rw [if_pos hc]
    have hused : (runPass (specialStep g) (scanOrder g.height g.length g.width)
        (runPass (mergeStep g) (scanOrder g.height g.length g.width)
          (MergeState.mk (fun _ => false) []))).used p = true := by
      cases hsp : g.special p with
      | false =>
        apply runPass_mono (specialStep g) (specialStep_mono g)
        exact runPass_self (mergeStep g)
          (fun q => g.color q ≠ -1 ∧ g.special q = false ∧
            inGrid g.height g.length g.width q)
          (mergeStep_mono g)
          (fun s q hcond => mergeStep_own g s q hcond.2.2 hcond.1 hcond.2.1)
          (scanOrder g.height g.length g.width)
          (MergeState.mk (fun _ => false) []) p hpo ⟨hc, hsp, hp⟩
      | true =>
        exact runPass_self (specialStep g)
          (fun q => g.color q ≠ -1 ∧ g.special q = true ∧
            inGrid g.height g.length g.width q ∧ (g.specEmit q).isSome = true)
          (specialStep_mono g)
          (fun s q hcond => specialStep_own g s q hcond.2.2.1 hcond.1 hcond.2.1
            hcond.2.2.2)
          (scanOrder g.height g.length g.width)
          (runPass (mergeStep g) (scanOrder g.height g.length g.width)
            (MergeState.mk (fun _ => false) [])) p hpo
          ⟨hc, hsp, hp, hspec p hp hsp hc⟩
    rw [hrm, hInv2.1 p, hused]
    rfl
  · rw [if_neg hc]
    push_neg at hc
    rw [hrm]
    cases hu : (runPass (specialStep g) (scanOrder g.height g.length g.width)
        (runPass (mergeStep g) (scanOrder g.height g.length g.width)
          (MergeState.mk (fun _ => false) []))).used p with
    | false => rw [hInv2.1 p, hu]; rfl
    | true =>
      exfalso
      have hpos : 0 < (runPass (specialStep g) (scanOrder g.height g.length g.width)
          (runPass (mergeStep g) (scanOrder g.height g.length g.width)
            (MergeState.mk (fun _ => false) []))).regions.countP
          (fun r => coversB r p) := by
        rw [hInv2.1 p, hu]
        norm_num
      obtain ⟨r, hr, hcov⟩ := List.countP_pos_iff.mp hpos
      exact (hInv2.2 r hr p hcov).2 hc

/-- The empty block name has no special shape (so the special pass's
`if not block_name` guard never loses a region). -/
theorem getSpecialPartInfo_empty : getSpecialPartInfo "" = none := by decide

/-- In the modern pipeline, every voxel flagged special by the analysis loop
is re-derivable by the special pass (its name is present and nonempty and
its shape parses again). -/
theorem pipeGrid_hspec (blockNames : List String) (width height length : Nat) :
    ∀ p, inGrid height length width p →
    (pipeGrid blockNames width height length).special p = true →
    (pipeGrid blockNames width height length).color p ≠ -1 →
    ((pipeGrid blockNames width height length).specEmit p).isSome = true := by
  intro p _ hsp _
  simp only [pipeGrid] at hsp ⊢
  unfold classifyVoxel at hsp
  unfold specEmitVoxel
  cases hget : blockNames[gridIndex length width p]? with
  | none => rw [hget] at hsp; simp at hsp
  | some nm =>
    rw [hget] at hsp
    dsimp only at hsp ⊢
    split_ifs at hsp with hid hcol hskip
    by_cases hnm : nm = ""
    · subst hnm
      rw [getSpecialPartInfo_empty] at hsp
      simp at hsp
    · rw [if_neg hnm]
      exact hsp

/-- C2: for every modern input grid (well-formed: the name list fills the
declared extents, as `np.reshape` guarantees for every successfully loaded
grid), the regions produced by the greedy merge strategy at scale 1
partition exactly the set of non-skipped voxels: every in-grid voxel is
covered by exactly one emitted region when its `color_grid` entry is not
the skip sentinel `-1`, and by none when it is (no voxel is covered
twice, none is left uncovered). -/
theorem c2_partition (blockNames : List String) (width height length : Nat)
    (hlen : blockNames.length = width * height * length)
    (p : Pos) (hp : inGrid height length width p) :
    (optimizedRegions blockNames width height length).countP (fun r => coversB r p) =
      if (classifyVoxel blockNames length width p).1 ≠ -1 then 1 else 0 :=
  runMerge_partition (pipeGrid blockNames width height length)
    (pipeGrid_hspec blockNames width height length) p hp

/-- C2 witness: on a well-formed 1x1x1 stone grid the single voxel is
non-skipped and covered by exactly one region. -/
theorem c2_partition_witness :
    inGrid 1 1 1 ((0, 0, 0) : Pos) ∧
    ((["minecraft:stone"] : List String).length = 1 * 1 * 1) ∧
    (optimizedRegions ["minecraft:stone"] 1 1 1).countP
        (fun r => coversB r (0, 0, 0)) =
      (if (classifyVoxel ["minecraft:stone"] 1 1 (0, 0, 0)).1 ≠ -1 then 1 else 0) :=
  ⟨by decide, by decide,
    c2_partition ["minecraft:stone"] 1 1 1 (by decide) (0, 0, 0) (by decide)⟩

/-- Members of an emission fold come from the seed or from some scanned
position's emission. -/
theorem mem_foldl_append {β : Type} (F : β → List LdrLine) :
    ∀ (L : List β) (acc : List LdrLine) (x : LdrLine),
      x ∈ L.foldl (fun a p => a ++ F p) acc → x ∈ acc ∨ ∃ p ∈ L, x ∈ F p := by
  intro L
  induction L with
  | nil => intro acc x hx; exact Or.inl hx
  | cons a L ih =>
    intro acc x hx
    rcases ih (acc ++ F a) x hx with h | ⟨p, hp, hxp⟩
    · rcases List.mem_append.mp h with h | h
      · exact Or.inl h
      · exact Or.inr ⟨a, List.mem_cons_self a L, h⟩
    · exact Or.inr ⟨p, List.mem_cons_of_mem a hp, hxp⟩

/-- Every facing rotation string has nine whitespace-separated values. -/
theorem rotationFor_tokens (f : String) :
    (pySplit (rotationFor f) " ").length = 9 := by
  unfold rotationFor
  split_ifs <;> decide

/-- Every flipped facing rotation string has nine values. -/
theorem flip_rotationFor_tokens (f : String) :
    (pySplit (flipRotationY (rotationFor f)) " ").length = 9 := by
  unfold rotationFor
  split_ifs <;> decide

/-- Every rotation carried by a special-shape descriptor has nine values. -/
theorem specialInfo_rot_tokens (nm : String) (info : SpecialInfo)
    (h : getSpecialPartInfo nm = some info) :
    (pySplit info.rotation " ").length = 9 := by
  unfold getSpecialPartInfo at h
  dsimp only at h
  by_cases h1 : (strContains (parseBlockState nm).1 "stairs" ||
      strContains (parseBlockState nm).1 "stair") = true
  · rw [if_pos h1] at h
    injection h with h
    subst h
    dsimp only
    by_cases h2 : propsGet (parseBlockState nm).2 "half" "bottom" = "top"
    · rw [if_pos h2]
      exact flip_rotationFor_tokens _
    · rw [if_neg h2]
      exact rotationFor_tokens _
  · rw [if_neg h1] at h
    by_cases h3 : strContains (parseBlockState nm).1 "slab" = true
    · rw [if_pos h3] at h
      by_cases h4 : propsGet (parseBlockState nm).2 "type" "bottom" = "double"
      · rw [if_pos h4] at h
        exact absurd h (by simp)
      · rw [if_neg h4] at h
        injection h with h
        subst h
        exact rotationFor_tokens "north"
    · rw [if_neg h3] at h
      by_cases h5 : strContains (parseBlockState nm).1 "carpet" = true
      · rw [if_pos h5] at h
        injection h with h
        subst h
        exact rotationFor_tokens "north"
      · rw [if_neg h5] at h
        exact absurd h (by simp)

/-- The merge step leaves the region list unchanged or appends its solid
region. -/
theorem mergeStep_regions_shape (g : ClassGrid) (s : MergeState) (p : Pos) :
    (mergeStep g s p).regions = s.regions ∨
    (mergeStep g s p).regions = s.regions ++ [mergeRegionOf g s.used p] := by
  unfold mergeStep
  split
  · exact Or.inl rfl
  · exact Or.inr rfl

/-- Merge-scan regions are solid: they carry no shape. -/
theorem mergeRegionOf_info (g : ClassGrid) (used : Pos → Bool) (p : Pos) :
    (mergeRegionOf g used p).info = none := by
  unfold mergeRegionOf
  split <;> rfl

/-- The special step leaves the region list unchanged or appends the cell's
single-cell shape region built from its emission data. -/
theorem specialStep_regions_shape (g : ClassGrid) (s : MergeState) (p : Pos) :
    (specialStep g s p).regions = s.regions ∨
    ∃ info, g.specEmit p = some info ∧
      (specialStep g s p).regions = s.regions ++
        [⟨p.1, p.2.1, p.2.2, 1, 1, g.color p, info.part, some info⟩] := by
  unfold specialStep
  split
  · exact Or.inl rfl
  · cases hemit : g.specEmit p with
    | none => exact Or.inl rfl
    | some info => exact Or.inr ⟨info, rfl, rfl⟩

/-- Every region the merge produces is solid or carries a shape whose
rotation has nine values (provided the emission data does). -/
theorem runMerge_info_tokens (g : ClassGrid)
    (hspec : ∀ p info, g.specEmit p = some info →
      (pySplit info.rotation " ").length = 9) :
    ∀ r ∈ (runMerge g).regions, r.info = none ∨
      ∃ info, r.info = some info ∧ (pySplit info.rotation " ").length = 9 := by
  have h1 := runPass_preserve (mergeStep g)
    (fun s => ∀ r ∈ s.regions, r.info = none ∨
      ∃ info, r.info = some info ∧ (pySplit info.rotation " ").length = 9)
    (scanOrder g.height g.length g.width)
    (fun s p _ hPs => by
      rcases mergeStep_regions_shape g s p with heq | heq
      · intro r hr; rw [heq] at hr; exact hPs r hr
      · intro r hr
        rw [heq] at hr
        rcases List.mem_append.mp hr with h | h
        · exact hPs r h
        · have : r = mergeRegionOf g s.used p := by simpa using h
          subst this
          exact Or.inl (mergeRegionOf_info g s.used p))
    (MergeState.mk (fun _ => false) [])
    (fun r hr => absurd hr (List.not_mem_nil r))
  exact runPass_preserve (specialStep g)
    (fun s => ∀ r ∈ s.regions, r.info = none ∨
      ∃ info, r.info = some info ∧ (pySplit info.rotation " ").length = 9)
    (scanOrder g.height g.length g.width)
    (fun s p _ hPs => by
      rcases specialStep_regions_shape g s p with heq | ⟨info, hemit, heq⟩
      · intro r hr; rw [heq] at hr; exact hPs r hr
      · intro r hr
        rw [heq] at hr
        rcases List.mem_append.mp hr with h | h
        · exact hPs r h
        · have hre : r = ⟨p.1, p.2.1, p.2.2, 1, 1, g.color p, info.part, some info⟩ := by
            simpa using h
          subst hre
          exact Or.inr ⟨info, rfl, hspec p info hemit⟩)
    (runPass (mergeStep g) (scanOrder g.height g.length g.width)
      (MergeState.mk (fun _ => false) [])) h1

/-- Special-pass emission data always comes from `_get_special_part_info`
on some block name. -/
theorem specEmitVoxel_some (blockNames : List String) (length width : Nat) (p : Pos)
    (info : SpecialInfo) (h : specEmitVoxel blockNames length width p = some info) :
    ∃ nm, getSpecialPartInfo nm = some info := by
  unfold specEmitVoxel at h
  cases hget : blockNames[gridIndex length width p]? with
  | none => rw [hget] at h; exact absurd h (by simp)
  | some nm =>
    rw [hget] at h
    dsimp only at h
    by_cases hnm : nm = ""
    · rw [if_pos hnm] at h; exact absurd h (by simp)
    · rw [if_neg hnm] at h; exact ⟨nm, h⟩

/-- Every line emitted by the standard converter at scale 1 has
integer-valued coordinates and a nine-value rotation. -/
theorem stdEmitVoxel_shape (blockNames : List String) (width height length : Nat)
    (p : Pos) (ln : LdrLine)
    (hln : ln ∈ stdEmitVoxel blockNames width height length 1 p) :
    (∃ n : Int, ln.x = (n : ℚ)) ∧ (∃ n : Int, ln.y = (n : ℚ)) ∧
    (∃ n : Int, ln.z = (n : ℚ)) ∧ (pySplit ln.rot " ").length = 9 := by
  unfold stdEmitVoxel at hln
  dsimp only at hln
  cases hget : blockNames[gridIndex length width p]? with
  | none => rw [hget] at hln; exact absurd hln (List.not_mem_nil ln)
  | some nm =>
    rw [hget] at hln
    dsimp only at hln
    split_ifs at hln with hid hcol hskip hsc
    · exact absurd hln (List.not_mem_nil ln)
    · exact absurd hln (List.not_mem_nil ln)
    · exact absurd hln (List.not_mem_nil ln)
    · exact absurd hsc (by norm_num)
    · cases hsi : getSpecialPartInfo nm with
      | some info =>
        rw [hsi] at hln
        have hle : ln = ⟨getColorFromBlockName nm,
            ((p.2.2 : ℚ) - (width : ℚ) / 2) * (20 * ((1 : Nat) : ℚ)),
            -(p.1 : ℚ) * (24 * ((1 : Nat) : ℚ)) + info.yOffset,
            ((p.2.1 : ℚ) - (length : ℚ) / 2) * (20 * ((1 : Nat) : ℚ)),
            info.rotation, info.part⟩ := by simpa using hln
        subst hle
        refine ⟨⟨20 * p.2.2 - 10 * width, by push_cast; ring⟩,
          ⟨-(24 * p.1) + info.yOffset, by push_cast; ring⟩,
          ⟨20 * p.2.1 - 10 * length, by push_cast; ring⟩,
          specialInfo_rot_tokens nm info hsi⟩
      | none =>
        rw [hsi] at hln
        have hle : ln = ⟨getColorFromBlockName nm,
            ((p.2.2 : ℚ) - (width : ℚ) / 2) * (20 * ((1 : Nat) : ℚ)),
            -(p.1 : ℚ) * (24 * ((1 : Nat) : ℚ)),
            ((p.2.1 : ℚ) - (length : ℚ) / 2) * (20 * ((1 : Nat) : ℚ)),
            "1 0 0 0 1 0 0 0 1", defaultBrick⟩ := by simpa using hln
        subst hle
        refine ⟨⟨20 * p.2.2 - 10 * width, by push_cast; ring⟩,
          ⟨-(24 * p.1), by push_cast; ring⟩,
          ⟨20 * p.2.1 - 10 * length, by push_cast; ring⟩, ?_⟩
        show (pySplit "1 0 0 0 1 0 0 0 1" " ").length = 9
        decide

/-- Every line rendered from a region at scale 1 has integer-valued
coordinates and a nine-value rotation. -/
theorem regionToLine_shape (width length : Nat) (r : Region)
    (hr : r.info = none ∨
      ∃ info, r.info = some info ∧ (pySplit info.rotation " ").length = 9) :
    (∃ n : Int, (regionToLine width length r).x = (n : ℚ)) ∧
    (∃ n : Int, (regionToLine width length r).y = (n : ℚ)) ∧
    (∃ n : Int, (regionToLine width length r).z = (n : ℚ)) ∧
    (pySplit (regionToLine width length r).rot " ").length = 9 := by
  unfold regionToLine
  cases hinfo : r.info with
  | none =>
    dsimp only
    refine ⟨⟨20 * r.x + 10 * r.xLen - 10 * width - 10, by push_cast; ring⟩,
      ⟨-(24 * r.y), by push_cast; ring⟩,
      ⟨20 * r.z + 10 * r.zLen - 10 * length - 10, by push_cast; ring⟩, ?_⟩
    show (pySplit "1 0 0 0 1 0 0 0 1" " ").length = 9
    decide
  | some info =>
    dsimp only
    rcases hr with h | ⟨info2, hinfo2, htok⟩
    · rw [hinfo] at h; exact absurd h (by simp)
    · rw [hinfo] at hinfo2
      have hii : info = info2 := Option.some.inj hinfo2
      rw [hii]
      exact ⟨⟨20 * r.x - 10 * width, by push_cast; ring⟩,
        ⟨-(24 * r.y) + info2.yOffset, by push_cast; ring⟩,
        ⟨20 * r.z - 10 * length, by push_cast; ring⟩, htok⟩

/-- C6 amended: every placement line of the two scale-1 emitters (standard
and optimized) is the f-string record of the line type `1`, the color
code, three positions each rendered as an integer with exactly TWO decimal
digits (`:.2f`; the coordinates are integer-valued), the 9-value rotation
matrix, and the part id with its `.dat` suffix as the final token. -/
theorem c6_line_format_amended (blockNames : List String) (width height length : Nat)
    (ln : LdrLine)
    (hln : ln ∈ convertStandardLines blockNames width height length 1 ∨
      ln ∈ optimizedLines blockNames width height length) :
    ∃ n1 n2 n3 : Int, ln.x = (n1 : ℚ) ∧ ln.y = (n2 : ℚ) ∧ ln.z = (n3 : ℚ) ∧
      fmt2 ln.x = toString n1 ++ ".00" ∧ fmt2 ln.y = toString n2 ++ ".00" ∧
      fmt2 ln.z = toString n3 ++ ".00" ∧
      (pySplit ln.rot " ").length = 9 ∧
      renderLine ln = "1 " ++ toString ln.color ++ " " ++ fmt2 ln.x ++ " " ++
        fmt2 ln.y ++ " " ++ fmt2 ln.z ++ " " ++ ln.rot ++ " " ++ ln.part ++ ".dat" := by
  have hshape : (∃ n : Int, ln.x = (n : ℚ)) ∧ (∃ n : Int, ln.y = (n : ℚ)) ∧
      (∃ n : Int, ln.z = (n : ℚ)) ∧ (pySplit ln.rot " ").length = 9 := by
    rcases hln with h | h
    · rcases mem_foldl_append
          (stdEmitVoxel blockNames width height length 1)
          (scanOrder height length width) [] ln h with h2 | ⟨p, _, h2⟩
      · exact absurd h2 (List.not_mem_nil ln)
      · exact stdEmitVoxel_shape blockNames width height length p ln h2
    · rcases List.mem_map.mp h with ⟨r, hr, hline⟩
      have hinv := runMerge_info_tokens (pipeGrid blockNames width height length)
        (fun p info hemit => by
          obtain ⟨nm, hnm⟩ := specEmitVoxel_some blockNames length width p info hemit
          exact specialInfo_rot_tokens nm info hnm)
        r hr
      rw [← hline]
      exact regionToLine_shape width length r hinv
  obtain ⟨⟨n1, h1⟩, ⟨n2, h2⟩, ⟨n3, h3⟩, h9⟩ := hshape
  refine ⟨n1, n2, n3, h1, h2, h3, ?_, ?_, ?_, h9, rfl⟩
  · rw [h1]; simp [fmt2]
  · rw [h2]; simp [fmt2]
  · rw [h3]; simp [fmt2]

unseal Rat.add Rat.mul Rat.inv Rat.sub in
/-- C6 witness: the single line of a 1x1x1 stone grid instantiates the
format theorem. -/
theorem c6_line_format_amended_witness :
    ((⟨71, -10, 0, -10, "1 0 0 0 1 0 0 0 1", "3005"⟩ : LdrLine) ∈
        convertStandardLines ["minecraft:stone"] 1 1 1 1 ∨
      (⟨71, -10, 0, -10, "1 0 0 0 1 0 0 0 1", "3005"⟩ : LdrLine) ∈
        optimizedLines ["minecraft:stone"] 1 1 1) ∧
    (∃ n1 n2 n3 : Int,
      (⟨71, -10, 0, -10, "1 0 0 0 1 0 0 0 1", "3005"⟩ : LdrLine).x = (n1 : ℚ) ∧
      (⟨71, -10, 0, -10, "1 0 0 0 1 0 0 0 1", "3005"⟩ : LdrLine).y = (n2 : ℚ) ∧
      (⟨71, -10, 0, -10, "1 0 0 0 1 0 0 0 1", "3005"⟩ : LdrLine).z = (n3 : ℚ) ∧
      fmt2 (⟨71, -10, 0, -10, "1 0 0 0 1 0 0 0 1", "3005"⟩ : LdrLine).x =
        toString n1 ++ ".00" ∧
      fmt2 (⟨71, -10, 0, -10, "1 0 0 0 1 0 0 0 1", "3005"⟩ : LdrLine).y =
        toString n2 ++ ".00" ∧
      fmt2 (⟨71, -10, 0, -10, "1 0 0 0 1 0 0 0 1", "3005"⟩ : LdrLine).z =
        toString n3 ++ ".00" ∧
      (pySplit (⟨71, -10, 0, -10, "1 0 0 0 1 0 0 0 1", "3005"⟩ : LdrLine).rot
        " ").length = 9 ∧
      renderLine (⟨71, -10, 0, -10, "1 0 0 0 1 0 0 0 1", "3005"⟩ : LdrLine) =
        "1 " ++ toString (⟨71, -10, 0, -10, "1 0 0 0 1 0 0 0 1", "3005"⟩ : LdrLine).color
          ++ " " ++ fmt2 (⟨71, -10, 0, -10, "1 0 0 0 1 0 0 0 1", "3005"⟩ : LdrLine).x
          ++ " " ++ fmt2 (⟨71, -10, 0, -10, "1 0 0 0 1 0 0 0 1", "3005"⟩ : LdrLine).y
          ++ " " ++ fmt2 (⟨71, -10, 0, -10, "1 0 0 0 1 0 0 0 1", "3005"⟩ : LdrLine).z
          ++ " " ++ (⟨71, -10, 0, -10, "1 0 0 0 1 0 0 0 1", "3005"⟩ : LdrLine).rot
          ++ " " ++ (⟨71, -10, 0, -10, "1 0 0 0 1 0 0 0 1", "3005"⟩ : LdrLine).part
          ++ ".dat") :=
  ⟨Or.inl (by decide),
    c6_line_format_amended ["minecraft:stone"] 1 1 1
      ⟨71, -10, 0, -10, "1 0 0 0 1 0 0 0 1", "3005"⟩ (Or.inl (by decide))⟩
